import Mathlib

/-!
# The libum FFI example client (`crates/vtd-libum-ffi/example/main.c`)

A shallow embedding of the example program that drives the user-mode interface
library: `check_status_exit`, the two enumeration visitors `print_process` and
`print_process_module`, and `main`.

The library itself (`libum_ffi.h` and the code behind it) is not part of the
sources.  Its constants are the fields of `Header`, its functions are the
fields of `Lib` (one response per call site of `main`), and what the operating
system and the compiler choose (the process id, the addresses of the locals,
the indeterminate contents of uninitialised locals) are the fields of `Env`.
-/

namespace Vtum

/-! ## Values declared outside the sources -/

/-- Constants of `libum_ffi.h`.  `DRIVER_FEATURE_X` is the `.bits` member of
the constant `DRIVER_FEATURE_X` of the header. -/
structure Header where
  VTUM_STATUS_SUCCESS : Nat
  DRIVER_FEATURE_MEMORY_READ : Nat
  DRIVER_FEATURE_MEMORY_WRITE : Nat
  DRIVER_FEATURE_PROCESS_LIST : Nat
  DRIVER_FEATURE_PROCESS_MODULES : Nat
  DIRECTORY_TABLE_TYPE_DEFAULT : Nat
  deriving DecidableEq, Repr

/-- The value `EXIT_FAILURE` of `stdlib.h`. -/
def EXIT_FAILURE : Nat := 1

/-! ## Output and control flow -/

/-- One argument of a `printf` call: an integer, a string literal, or the
bytes of the buffer a `%s` argument points to. -/
inductive Arg where
  | num (n : Nat)
  | str (s : String)
  | buf (bytes : List Nat)
  deriving DecidableEq, Repr

/-- A line written by `printf`: the format string and its arguments. -/
structure Line where
  format : String
  args : List Arg
  deriving DecidableEq, Repr

/-- How a function of the program ends: it returns to its caller, or it
terminates the process through `exit`.  Both carry the state reached. -/
inductive Flow (σ α : Type) where
  | returns (value : α) (state : σ)
  | exits (code : Nat) (state : σ)

/-- Sequencing: the rest of the function runs only when the first part
returned; `exit` ends the process at once. -/
def Flow.andThen {σ α β : Type} (x : Flow σ α) (f : α → σ → Flow σ β) : Flow σ β :=
  match x with
  | Flow.returns a s => f a s
  | Flow.exits c s => Flow.exits c s

/-! ## Data of the library interface -/

/-- Modelled from the spec: `DirectoryTableType` is declared in `libum_ffi.h`,
which is not among the sources.  It is a tagged selector: the tag, and the
64-bit physical value the explicit-override tag carries. -/
structure DirectoryTableType where
  tag : Nat
  directory_table_base : Nat
  deriving DecidableEq, Repr

/-- Modelled from the spec: `VersionInfo` is declared in `libum_ffi.h`.  The
fields are the ones `main` prints. -/
structure VersionInfo where
  application_name : List Nat
  version_major : Nat
  version_minor : Nat
  version_patch : Nat
  deriving DecidableEq, Repr

/-- Modelled from the spec: `ProcessInfo` is declared in `libum_ffi.h`.
`image_base_name` is a fixed-size byte buffer that need not hold a NUL byte;
its size is not in the sources, so it is the length of the list. -/
structure ProcessInfo where
  process_id : Nat
  image_base_name : List Nat
  directory_table_base : Nat
  deriving DecidableEq, Repr

/-- Modelled from the spec: `ProcessModuleInfo` is declared in `libum_ffi.h`.
`base_dll_name` is the buffer the field refers to. -/
structure ProcessModuleInfo where
  base_address : Nat
  base_dll_name : List Nat
  module_size : Nat
  deriving DecidableEq, Repr

/-- What an enumeration visitor leaves behind: the value it returns, the lines
it printed, and the record its `const` pointer argument points to. -/
structure Visit (α : Type) where
  value : Bool
  lines : List Line
  info : α
  deriving DecidableEq, Repr

/-! ## Memory of the stack frame of `main` -/

/-- Byte-addressed memory: the byte stored at each address. -/
abbrev Mem := Nat → Nat

/-- The value of `sizeof(uint64_t)`. -/
def sizeof_uint64_t : Nat := 8

/-- Store of a `uint64_t` object at address `a` (little endian). -/
def store64 (m : Mem) (a v : Nat) : Mem :=
  fun x => if a ≤ x ∧ x < a + sizeof_uint64_t then (v % 2 ^ 64) / 256 ^ (x - a) % 256 else m x

/-- Load of a `uint64_t` object from address `a` (little endian). -/
def load64 (m : Mem) (a : Nat) : Nat :=
  ((List.range sizeof_uint64_t).map (fun i => m (a + i) % 256 * 256 ^ i)).sum

/-! ## The library and the environment -/

/-- A call of a library function that returns a status, with the arguments
`main` passes by value and the values of the objects it passes by pointer to
`const`.  Buffers are given by their address. -/
inductive Call where
  | vtum_library_initialize
  | vtum_interface_create
  | vtum_interface_driver_version (handle : Nat)
  | vtum_interface_driver_features (handle : Nat)
  | vtum_interface_memory_read (handle process_id : Nat) (directory_table : DirectoryTableType)
      (virtual_address buffer length : Nat)
  | vtum_interface_memory_write (handle process_id : Nat) (directory_table : DirectoryTableType)
      (virtual_address buffer length : Nat)
  | vtum_interface_process_list (handle : Nat)
  | vtum_interface_process_module_list (handle process_id : Nat)
      (directory_table : DirectoryTableType)
  deriving DecidableEq, Repr

/-- What the process does that can be observed from outside, in order:
`call c status`, a library function was called and returned `status`;
`library_version`, the function `vtum_library_version` was called;
`printf line`, a line was printed by `main` or by `check_status_exit`;
`visitor_printf line`, a line was printed by the visitor of an enumeration
while the library ran the enumeration (these follow the event of the call). -/
inductive Event where
  | call (c : Call) (status : Nat)
  | library_version
  | printf (line : Line)
  | visitor_printf (line : Line)
  deriving DecidableEq, Repr

/-- The responses of the library, one field per call site of `main`; nothing
is assumed about them.  A status is the returned `VtumStatus`; the second
component is the value of the object behind the out pointer after the call
(`handle`, `version_info`, `features.bits`).  The memory calls receive their
arguments in the order of the C call and act on the memory of the calling
process, since `main` targets its own process id.  The enumeration calls
receive the visitor and answer with the lines its invocations printed.  The
selector is passed by pointer to `const`: the library does not change it. -/
structure Lib where
  library_initialize : Nat
  library_version : List Nat
  interface_create : Nat × Nat
  driver_version : Nat → Nat × VersionInfo
  driver_features : Nat → Nat × Nat
  memory_read : Nat → Nat → DirectoryTableType → Nat → Nat → Nat → Mem → Nat × Mem
  memory_write : Nat → Nat → DirectoryTableType → Nat → Nat → Nat → Mem → Nat × Mem
  process_list : Nat → (ProcessInfo → Option (Visit ProcessInfo)) → Nat × List Line
  process_module_list : Nat → Nat → DirectoryTableType →
    (ProcessModuleInfo → Visit ProcessModuleInfo) → Nat × List Line

/-- What the operating system and the compiler choose: the result of
`GetCurrentProcessId()`, the addresses of the locals of `main` whose address
is taken as a buffer, and the indeterminate contents of uninitialised
locals. -/
structure Env where
  current_process_id : Nat
  addr_target_value : Nat
  addr_read_buffer : Nat
  addr_new_value : Nat
  uninit_directory_table : DirectoryTableType
  uninit_image_base_name : Nat → Nat

/-- The state of the running process: what it has done so far, and the memory
that holds the locals of `main` whose address goes to the library as a buffer
or as a virtual address (`target_value`, `read_buffer`, `new_value`).  The
other locals are values of the embedding. -/
structure Machine where
  trace : List Event
  memory : Mem

/-- A piece of the program: from a state to a return or an exit. -/
def Prog (α : Type) : Type := Machine → Flow Machine α

instance : Monad Prog where
  pure a := fun s => Flow.returns a s
  bind x f := fun s => (x s).andThen f

/-- The function `printf`: appends the line to the output. -/
def printf (format : String) (args : List Arg) : Prog Unit :=
  fun s => Flow.returns () { s with trace := s.trace ++ [Event.printf ⟨format, args⟩] }

/-- The function `exit`: ends the process with the given code. -/
def exit {α : Type} (code : Nat) : Prog α :=
  fun s => Flow.exits code s

/-- The lines the visitor printed during an enumeration reach the output in
order. -/
def emit (lines : List Line) : Prog Unit :=
  fun s => Flow.returns () { s with trace := s.trace ++ lines.map Event.visitor_printf }

/-- Record a call that returned `status`. -/
def called (c : Call) (status : Nat) : Prog Unit :=
  fun s => Flow.returns () { s with trace := s.trace ++ [Event.call c status] }

/-- Initialisation of, or assignment to, a `uint64_t` local. -/
def store (a v : Nat) : Prog Unit :=
  fun s => Flow.returns () { s with memory := store64 s.memory a v }

/-- Read of a `uint64_t` local. -/
def load (a : Nat) : Prog Nat :=
  fun s => Flow.returns (load64 s.memory a) s

/-! ## Calls into the library

Each library function `main` calls: the call is recorded with its arguments and
the status it returned, and the response of the library is handed back. -/

/-- The call `vtum_library_initialize()`. -/
def vtum_library_initialize (lib : Lib) : Prog Nat := do
  called Call.vtum_library_initialize lib.library_initialize
  return lib.library_initialize

/-- The call `vtum_library_version()`. -/
def vtum_library_version (lib : Lib) : Prog (List Nat) :=
  fun s => Flow.returns lib.library_version { s with trace := s.trace ++ [Event.library_version] }

/-- The call `vtum_interface_create(&handle)`: the status and the handle. -/
def vtum_interface_create (lib : Lib) : Prog (Nat × Nat) := do
  called Call.vtum_interface_create lib.interface_create.1
  return lib.interface_create

/-- The call `vtum_interface_driver_version(handle, &version_info)`. -/
def vtum_interface_driver_version (lib : Lib) (handle : Nat) : Prog (Nat × VersionInfo) := do
  called (Call.vtum_interface_driver_version handle) (lib.driver_version handle).1
  return lib.driver_version handle

/-- The call `vtum_interface_driver_features(handle, &features)`. -/
def vtum_interface_driver_features (lib : Lib) (handle : Nat) : Prog (Nat × Nat) := do
  called (Call.vtum_interface_driver_features handle) (lib.driver_features handle).1
  return lib.driver_features handle

/-- The call `vtum_interface_memory_read(handle, process_id, &directory_table,
virtual_address, buffer, length)`. -/
def vtum_interface_memory_read (lib : Lib) (handle process_id : Nat)
    (directory_table : DirectoryTableType) (virtual_address buffer length : Nat) : Prog Nat :=
  fun s =>
    let r := lib.memory_read handle process_id directory_table virtual_address buffer length
      s.memory
    Flow.returns r.1
      { trace := s.trace ++ [Event.call (Call.vtum_interface_memory_read handle process_id
          directory_table virtual_address buffer length) r.1],
        memory := r.2 }

/-- The call `vtum_interface_memory_write(handle, process_id, &directory_table,
virtual_address, buffer, length)`. -/
def vtum_interface_memory_write (lib : Lib) (handle process_id : Nat)
    (directory_table : DirectoryTableType) (virtual_address buffer length : Nat) : Prog Nat :=
  fun s =>
    let r := lib.memory_write handle process_id directory_table virtual_address buffer length
      s.memory
    Flow.returns r.1
      { trace := s.trace ++ [Event.call (Call.vtum_interface_memory_write handle process_id
          directory_table virtual_address buffer length) r.1],
        memory := r.2 }

/-- The call `vtum_interface_process_list(handle, visitor)`. -/
def vtum_interface_process_list (lib : Lib) (handle : Nat)
    (visitor : ProcessInfo → Option (Visit ProcessInfo)) : Prog Nat := do
  let r := lib.process_list handle visitor
  called (Call.vtum_interface_process_list handle) r.1
  emit r.2
  return r.1

/-- The call `vtum_interface_process_module_list(handle, process_id,
&directory_table, visitor)`. -/
def vtum_interface_process_module_list (lib : Lib) (handle process_id : Nat)
    (directory_table : DirectoryTableType)
    (visitor : ProcessModuleInfo → Visit ProcessModuleInfo) : Prog Nat := do
  let r := lib.process_module_list handle process_id directory_table visitor
  called (Call.vtum_interface_process_module_list handle process_id directory_table) r.1
  emit r.2
  return r.1

/-! ## The program -/

/-- The function `check_status_exit` (lines 5-12). -/
def check_status_exit (hdr : Header) (status : Nat) (message : String) : Prog Unit := do
  if status = hdr.VTUM_STATUS_SUCCESS then
    return
  printf "failed to %s. status: %x\n" [Arg.str message, Arg.num status]
  exit EXIT_FAILURE

/-- The function `memcpy` on byte buffers: the first `n` bytes of `dst` are
replaced by the first `n` bytes of `src`.  Undefined (`none`) when either
buffer is shorter than `n`. -/
def memcpy (dst src : List Nat) (n : Nat) : Option (List Nat) :=
  if n ≤ src.length ∧ n ≤ dst.length then some (src.take n ++ dst.drop n) else none

/-- The function `print_process` (lines 14-21).  `uninit` is the indeterminate
content of the local buffer before it is written. -/
def print_process (uninit : Nat → Nat) (info : ProcessInfo) : Option (Visit ProcessInfo) :=
  let image_base_name : List Nat := List.ofFn (fun i : Fin 16 => uninit i)
  let image_base_name := image_base_name.set 15 0x00
  match memcpy image_base_name info.image_base_name 15 with
  | none => none
  | some image_base_name =>
    some
      { value := true,
        lines := [⟨" - %u %s (directory table base = 0x%llX)\n",
          [Arg.num info.process_id, Arg.buf image_base_name, Arg.num info.directory_table_base]⟩],
        info := info }

/-- The function `print_process_module` (lines 23-26). -/
def print_process_module (info : ProcessModuleInfo) : Visit ProcessModuleInfo :=
  { value := true,
    lines := [⟨" - %llx %s (size = %llx)\n",
      [Arg.num info.base_address, Arg.buf info.base_dll_name, Arg.num info.module_size]⟩],
    info := info }

/-- The test `features.bits & DRIVER_FEATURE_X.bits` of an `if`. -/
def has_feature (bits mask : Nat) : Bool :=
  bits &&& mask != 0

/-- The function `main` (lines 28-102). -/
def main (hdr : Header) (env : Env) (lib : Lib) : Prog Nat := do
  check_status_exit hdr (← vtum_library_initialize lib) "failed to initialize lib"

  printf "VT library version: %s\n" [Arg.buf (← vtum_library_version lib)]

  let (status, handle) ← vtum_interface_create lib
  check_status_exit hdr status "failed to create a new interface"

  let (_, version_info) ← vtum_interface_driver_version lib handle

  let (_, features) ← vtum_interface_driver_features lib handle

  printf "Using driver %s version %d.%d.%d.\n"
    [Arg.buf version_info.application_name,
     Arg.num version_info.version_major,
     Arg.num version_info.version_minor,
     Arg.num version_info.version_patch]

  let directory_table : DirectoryTableType :=
    { env.uninit_directory_table with tag := hdr.DIRECTORY_TABLE_TYPE_DEFAULT }

  let current_process_id := env.current_process_id
  store env.addr_target_value 0xDEADBEEF

  if has_feature features hdr.DRIVER_FEATURE_MEMORY_READ then
    store env.addr_read_buffer 0x00
    let status ← vtum_interface_memory_read lib
      handle
      current_process_id
      directory_table
      env.addr_target_value
      env.addr_read_buffer sizeof_uint64_t
    check_status_exit hdr status "read dummy variable"
    printf "Read variable value: %llx\n" [Arg.num (← load env.addr_read_buffer)]
  else
    printf "Driver does not support reading memory\n" []

  if has_feature features hdr.DRIVER_FEATURE_MEMORY_WRITE then
    store env.addr_new_value 0xB00BB00B
    let status ← vtum_interface_memory_write lib
      handle
      current_process_id
      directory_table
      env.addr_target_value
      env.addr_new_value sizeof_uint64_t
    check_status_exit hdr status "write dummy variable"
    printf "Write variable value: %llx\n" [Arg.num (← load env.addr_target_value)]
  else
    printf "Driver does not support writing memory\n" []

  if has_feature features hdr.DRIVER_FEATURE_PROCESS_LIST then
    printf "Current process list:\n" []
    check_status_exit hdr
      (← vtum_interface_process_list lib handle (print_process env.uninit_image_base_name))
      "iterate processes"
  else
    printf "Driver does not support iterating processes\n" []

  if has_feature features hdr.DRIVER_FEATURE_PROCESS_MODULES then
    printf "Current processes modules:\n" []
    check_status_exit hdr
      (← vtum_interface_process_module_list lib handle current_process_id directory_table
        print_process_module)
      "iterate processes"
  else
    printf "Driver does not support iterating modules\n" []

  return 0

/-- The process starts with nothing done yet. -/
def Machine.start (memory : Mem) : Machine :=
  { trace := [], memory := memory }

/-! ## Observations on a run -/

/-- How the process ended, without the state. -/
inductive Outcome (α : Type) where
  | returned (value : α)
  | exited (code : Nat)
  deriving DecidableEq, Repr

/-- The way a run ended. -/
def Flow.outcome {σ α : Type} : Flow σ α → Outcome α
  | Flow.returns v _ => Outcome.returned v
  | Flow.exits c _ => Outcome.exited c

/-- The state a run ended in. -/
def Flow.state {σ α : Type} : Flow σ α → σ
  | Flow.returns _ s => s
  | Flow.exits _ s => s

/-- The line `check_status_exit` prints before it exits. -/
def failure_line (message : String) (status : Nat) : Event :=
  Event.printf ⟨"failed to %s. status: %x\n", [Arg.str message, Arg.num status]⟩

/-- The library calls of a trace with the status each returned, in order. -/
def calls (trace : List Event) : List (Call × Nat) :=
  trace.filterMap fun e =>
    match e with
    | Event.call c status => some (c, status)
    | _ => none

/-- The run of `main` from a fresh process: what it did. -/
def main_trace (hdr : Header) (env : Env) (lib : Lib) (mem : Mem) : List Event :=
  (main hdr env lib (Machine.start mem)).state.trace

/-- The run of `main` from a fresh process: how it ended. -/
def main_outcome (hdr : Header) (env : Env) (lib : Lib) (mem : Mem) : Outcome Nat :=
  (main hdr env lib (Machine.start mem)).outcome

/-- The library functions `main` calls. -/
inductive LibFn where
  | vtum_library_initialize
  | vtum_library_version
  | vtum_interface_create
  | vtum_interface_driver_version
  | vtum_interface_driver_features
  | vtum_interface_memory_read
  | vtum_interface_memory_write
  | vtum_interface_process_list
  | vtum_interface_process_module_list
  deriving DecidableEq, Repr

/-- The function a call goes to. -/
def Call.function : Call → LibFn
  | Call.vtum_library_initialize => LibFn.vtum_library_initialize
  | Call.vtum_interface_create => LibFn.vtum_interface_create
  | Call.vtum_interface_driver_version _ => LibFn.vtum_interface_driver_version
  | Call.vtum_interface_driver_features _ => LibFn.vtum_interface_driver_features
  | Call.vtum_interface_memory_read _ _ _ _ _ _ => LibFn.vtum_interface_memory_read
  | Call.vtum_interface_memory_write _ _ _ _ _ _ => LibFn.vtum_interface_memory_write
  | Call.vtum_interface_process_list _ => LibFn.vtum_interface_process_list
  | Call.vtum_interface_process_module_list _ _ _ => LibFn.vtum_interface_process_module_list

/-- The library function an event is a call of, if it is a call. -/
def Event.function : Event → Option LibFn
  | Event.call c _ => some c.function
  | Event.library_version => some LibFn.vtum_library_version
  | Event.printf _ => none
  | Event.visitor_printf _ => none

/-- The library functions called in a trace, in order. -/
def functions (trace : List Event) : List LibFn :=
  trace.filterMap Event.function

/-- The place of a library function in the text of `main`. -/
def LibFn.rank : LibFn → Nat
  | LibFn.vtum_library_initialize => 0
  | LibFn.vtum_library_version => 1
  | LibFn.vtum_interface_create => 2
  | LibFn.vtum_interface_driver_version => 3
  | LibFn.vtum_interface_driver_features => 4
  | LibFn.vtum_interface_memory_read => 5
  | LibFn.vtum_interface_memory_write => 6
  | LibFn.vtum_interface_process_list => 7
  | LibFn.vtum_interface_process_module_list => 8

/-- The four operations that depend on a feature. -/
def Call.is_feature_op : Call → Bool
  | Call.vtum_interface_memory_read _ _ _ _ _ _ => true
  | Call.vtum_interface_memory_write _ _ _ _ _ _ => true
  | Call.vtum_interface_process_list _ => true
  | Call.vtum_interface_process_module_list _ _ _ => true
  | _ => false

/-- The operations on a handle: all calls but `vtum_library_initialize` and
`vtum_interface_create`. -/
def Call.is_handle_op : Call → Bool
  | Call.vtum_library_initialize => false
  | Call.vtum_interface_create => false
  | _ => true

/-- The calls meant by "`vtum_library_initialize`, `vtum_interface_create` and
every feature-gated operation". -/
def Call.is_setup_or_feature_op (c : Call) : Bool :=
  c = Call.vtum_library_initialize || c = Call.vtum_interface_create || c.is_feature_op

/-- The four features `main` tests. -/
inductive Feature where
  | MEMORY_READ
  | MEMORY_WRITE
  | PROCESS_LIST
  | PROCESS_MODULES
  deriving DecidableEq, Repr

/-- The bit of a feature: `DRIVER_FEATURE_X.bits`. -/
def Feature.bits (hdr : Header) : Feature → Nat
  | Feature.MEMORY_READ => hdr.DRIVER_FEATURE_MEMORY_READ
  | Feature.MEMORY_WRITE => hdr.DRIVER_FEATURE_MEMORY_WRITE
  | Feature.PROCESS_LIST => hdr.DRIVER_FEATURE_PROCESS_LIST
  | Feature.PROCESS_MODULES => hdr.DRIVER_FEATURE_PROCESS_MODULES

/-- The operation that goes with a feature. -/
def Feature.operation : Feature → LibFn
  | Feature.MEMORY_READ => LibFn.vtum_interface_memory_read
  | Feature.MEMORY_WRITE => LibFn.vtum_interface_memory_write
  | Feature.PROCESS_LIST => LibFn.vtum_interface_process_list
  | Feature.PROCESS_MODULES => LibFn.vtum_interface_process_module_list

/-- The feature an operation goes with. -/
def LibFn.required_feature : LibFn → Option Feature
  | LibFn.vtum_interface_memory_read => some Feature.MEMORY_READ
  | LibFn.vtum_interface_memory_write => some Feature.MEMORY_WRITE
  | LibFn.vtum_interface_process_list => some Feature.PROCESS_LIST
  | LibFn.vtum_interface_process_module_list => some Feature.PROCESS_MODULES
  | _ => none

/-- The feature `main` turns to after a feature. -/
def Feature.next : Feature → Option Feature
  | Feature.MEMORY_READ => some Feature.MEMORY_WRITE
  | Feature.MEMORY_WRITE => some Feature.PROCESS_LIST
  | Feature.PROCESS_LIST => some Feature.PROCESS_MODULES
  | Feature.PROCESS_MODULES => none

/-- The line `main` prints when a feature is missing. -/
def Feature.unsupported_line : Feature → Event
  | Feature.MEMORY_READ => Event.printf ⟨"Driver does not support reading memory\n", []⟩
  | Feature.MEMORY_WRITE => Event.printf ⟨"Driver does not support writing memory\n", []⟩
  | Feature.PROCESS_LIST => Event.printf ⟨"Driver does not support iterating processes\n", []⟩
  | Feature.PROCESS_MODULES => Event.printf ⟨"Driver does not support iterating modules\n", []⟩

/-- The part of `main` for a feature was entered: the operation was called, or
the line for the missing feature was printed. -/
def reached (f : Feature) (trace : List Event) : Prop :=
  f.unsupported_line ∈ trace ∨ f.operation ∈ functions trace

/-- The process id and the selector a translation-dependent call receives. -/
def Call.translation_context : Call → Option (Nat × DirectoryTableType)
  | Call.vtum_interface_memory_read _ pid dt _ _ _ => some (pid, dt)
  | Call.vtum_interface_memory_write _ pid dt _ _ _ => some (pid, dt)
  | Call.vtum_interface_process_module_list _ pid dt => some (pid, dt)
  | _ => none

/-- The handle a handle operation receives. -/
def Call.handle : Call → Option Nat
  | Call.vtum_library_initialize => none
  | Call.vtum_interface_create => none
  | Call.vtum_interface_driver_version h => some h
  | Call.vtum_interface_driver_features h => some h
  | Call.vtum_interface_memory_read h _ _ _ _ _ => some h
  | Call.vtum_interface_memory_write h _ _ _ _ _ => some h
  | Call.vtum_interface_process_list h => some h
  | Call.vtum_interface_process_module_list h _ _ => some h

/-- A call of `vtum_library_initialize`, of `vtum_interface_create` or of a
feature operation that returned a status other than `success`. -/
def failed_call (success : Nat) : Event → Bool
  | Event.call c status => c.is_setup_or_feature_op && status != success
  | _ => false

/-- No library call follows a failed call. -/
def quiet_after_failure (success : Nat) : List Event → Bool
  | [] => true
  | e :: rest =>
    if failed_call success e then rest.all fun x => x.function.isNone
    else quiet_after_failure success rest

/-- No call of the operation of a feature failed: each one in the trace returned
`success` (there may be none). -/
def unfailed (success : Nat) (f : Feature) (trace : List Event) : Prop :=
  ∀ c st, Event.call c st ∈ trace → c.function = f.operation → st = success

/-- The order of the handle state machine along the calls of a trace:
`vtum_interface_create` only once `vtum_library_initialize` has returned
`success`, a handle operation only once `vtum_interface_create` has returned
`success`.  `initialized` and `created` say what has happened before. -/
def ordered (success : Nat) : List (Call × Nat) → Bool → Bool → Bool
  | [], _, _ => true
  | (c, status) :: rest, initialized, created =>
    (if c = Call.vtum_interface_create then initialized
      else if c.is_handle_op then created else true) &&
    ordered success rest
      (initialized || (c = Call.vtum_library_initialize && status = success))
      (created || (c = Call.vtum_interface_create && status = success))

/-- The bytes `%s` prints from a buffer: those before the first NUL byte.
Undefined (`none`) when the buffer holds no NUL byte, since `printf` would
read past its end. -/
def c_string (buffer : List Nat) : Option (List Nat) :=
  if 0 ∈ buffer then some (buffer.takeWhile (· ≠ 0)) else none

/-! ## The library as the specification describes it -/

/-- Modelled from the spec: the enumeration engine behind
`vtum_interface_process_list` and `vtum_interface_process_module_list` is not
among the sources.  It invokes the visitor once per record, in sequence, and
stops the first time the visitor returns false.  The result is the number of
invocations and the lines they printed; it is undefined when an invocation
is. -/
def enumerate {α : Type} (visitor : α → Option (Visit α)) : List α → Option (Nat × List Line)
  | [] => some (0, [])
  | r :: rs =>
    match visitor r with
    | none => none
    | some v =>
      if v.value then
        match enumerate visitor rs with
        | none => none
        | some (n, lines) => some (n + 1, v.lines ++ lines)
      else some (1, v.lines)

/-- Copy of `length` bytes from address `src` to address `dst`. -/
def copy_bytes (m : Mem) (dst src length : Nat) : Mem :=
  fun x => if dst ≤ x ∧ x < dst + length then m (src + (x - dst)) else m x

/-- Modelled from the spec: the memory access engine is not among the sources.
A read that succeeds has copied `length` bytes from `virtual_address` into the
buffer, a write that succeeds has copied `length` bytes from the buffer to
`virtual_address`; the target is the calling process. -/
def Lib.copies_as_specified (hdr : Header) (lib : Lib) : Prop :=
  (∀ handle pid dt va buf len m,
    (lib.memory_read handle pid dt va buf len m).1 = hdr.VTUM_STATUS_SUCCESS →
    (lib.memory_read handle pid dt va buf len m).2 = copy_bytes m buf va len) ∧
  (∀ handle pid dt va buf len m,
    (lib.memory_write handle pid dt va buf len m).1 = hdr.VTUM_STATUS_SUCCESS →
    (lib.memory_write handle pid dt va buf len m).2 = copy_bytes m va buf len)

/-! ## Concrete inputs -/

/-- A header: `VTUM_STATUS_SUCCESS` is 0, the feature bits are four distinct
bits, the default selector has tag 0. -/
def example_header : Header :=
  { VTUM_STATUS_SUCCESS := 0,
    DRIVER_FEATURE_MEMORY_READ := 0x100,
    DRIVER_FEATURE_MEMORY_WRITE := 0x200,
    DRIVER_FEATURE_PROCESS_LIST := 0x01,
    DRIVER_FEATURE_PROCESS_MODULES := 0x02,
    DIRECTORY_TABLE_TYPE_DEFAULT := 0 }

/-- An environment: three locals of eight bytes next to each other. -/
def example_env : Env :=
  { current_process_id := 4242,
    addr_target_value := 1000,
    addr_read_buffer := 1008,
    addr_new_value := 1016,
    uninit_directory_table := { tag := 7, directory_table_base := 9 },
    uninit_image_base_name := fun _ => 0xCC }

/-- A process record whose name fills the fifteen bytes, without NUL. -/
def example_process : ProcessInfo :=
  { process_id := 4,
    image_base_name := [83, 121, 115, 116, 101, 109, 73, 100, 108, 101, 80, 114, 111, 99, 115],
    directory_table_base := 0x1AB000 }

/-- Two process records: `example_process`, and one with a short name
followed by NUL bytes. -/
def example_processes : List ProcessInfo :=
  [example_process,
   { process_id := 4242, image_base_name := [97, 46, 101, 120, 101, 0, 0, 0, 0, 0, 0, 0, 0, 0,
      0], directory_table_base := 0x2CD000 }]

/-- One module record. -/
def example_modules : List ProcessModuleInfo :=
  [{ base_address := 0x10000, base_dll_name := [97, 46, 101, 120, 101, 0], module_size := 0x2000 }]

/-- The lines of an enumeration, none when it is undefined. -/
def enumerate_lines {α : Type} (visitor : α → Option (Visit α)) (records : List α) : List Line :=
  match enumerate visitor records with
  | some r => r.2
  | none => []

/-- A library that behaves as the specification describes, with the given
feature bits and the given statuses for `vtum_library_initialize`,
`vtum_interface_create`, `vtum_interface_driver_version`,
`vtum_interface_driver_features`, and the four feature operations. -/
def example_lib (features : Nat) (s_init s_create s_version s_features s_read s_write s_list
    s_modules : Nat) : Lib :=
  { library_initialize := s_init,
    library_version := [48, 46, 49, 0],
    interface_create := (s_create, 77),
    driver_version := fun _ =>
      (s_version, { application_name := [100, 114, 118, 0], version_major := 1,
                    version_minor := 2, version_patch := 3 }),
    driver_features := fun _ => (s_features, features),
    memory_read := fun _ _ _ va buf len m => (s_read, copy_bytes m buf va len),
    memory_write := fun _ _ _ va buf len m => (s_write, copy_bytes m va buf len),
    process_list := fun _ visitor => (s_list, enumerate_lines visitor example_processes),
    process_module_list := fun _ _ _ visitor =>
      (s_modules, enumerate_lines (fun r => some (visitor r)) example_modules) }

/-- The library with another answer to `vtum_interface_driver_features`. -/
def Lib.with_features (lib : Lib) (response : Nat → Nat × Nat) : Lib :=
  { lib with driver_features := response }

/-- Memory that holds zero everywhere. -/
def zero_memory : Mem := fun _ => 0

/-! ## The run of `main` in closed form

Used in the proofs only: a stretch of `main` is summed up by the events it
adds, the memory it leaves and whether it ended the process. -/

/-- What a stretch of `main` does. -/
structure Segment where
  events : List Event
  memory : Mem
  stopped : Bool

/-- A stretch that comes after the events `events`. -/
def Segment.extend (events : List Event) (b : Segment) : Segment :=
  { events := events ++ b.events, memory := b.memory, stopped := b.stopped }

/-- One stretch after another; nothing follows a stretch that ended the
process. -/
def Segment.andThen (a : Segment) (b : Mem → Segment) : Segment :=
  if a.stopped then a else Segment.extend a.events (b a.memory)

/-- The run a segment stands for. -/
def Segment.flow (a : Segment) : Flow Machine Nat :=
  if a.stopped then Flow.exits EXIT_FAILURE { trace := a.events, memory := a.memory }
  else Flow.returns 0 { trace := a.events, memory := a.memory }

/-- The handle `main` uses. -/
def main_handle (lib : Lib) : Nat := lib.interface_create.2

/-- The feature bits `main` tests. -/
def main_features (lib : Lib) : Nat := (lib.driver_features lib.interface_create.2).2

/-- The selector `main` passes. -/
def main_directory_table (hdr : Header) (env : Env) : DirectoryTableType :=
  { tag := hdr.DIRECTORY_TABLE_TYPE_DEFAULT,
    directory_table_base := env.uninit_directory_table.directory_table_base }

/-- The calls in the text of `main`, each feature operation with the test that
guards it. -/
def main_call (hdr : Header) (env : Env) (lib : Lib) (c : Call) : Prop :=
  c = Call.vtum_library_initialize ∨ c = Call.vtum_interface_create ∨
  c = Call.vtum_interface_driver_version (main_handle lib) ∨
  c = Call.vtum_interface_driver_features (main_handle lib) ∨
  (has_feature (main_features lib) hdr.DRIVER_FEATURE_MEMORY_READ = true ∧
    c = Call.vtum_interface_memory_read (main_handle lib) env.current_process_id
      (main_directory_table hdr env) env.addr_target_value env.addr_read_buffer
      sizeof_uint64_t) ∨
  (has_feature (main_features lib) hdr.DRIVER_FEATURE_MEMORY_WRITE = true ∧
    c = Call.vtum_interface_memory_write (main_handle lib) env.current_process_id
      (main_directory_table hdr env) env.addr_target_value env.addr_new_value
      sizeof_uint64_t) ∨
  (has_feature (main_features lib) hdr.DRIVER_FEATURE_PROCESS_LIST = true ∧
    c = Call.vtum_interface_process_list (main_handle lib)) ∨
  (has_feature (main_features lib) hdr.DRIVER_FEATURE_PROCESS_MODULES = true ∧
    c = Call.vtum_interface_process_module_list (main_handle lib) env.current_process_id
      (main_directory_table hdr env))

/-- Lines 29-53. -/
def prelude_segment (hdr : Header) (env : Env) (lib : Lib) (m : Mem) : Segment :=
  if lib.library_initialize = hdr.VTUM_STATUS_SUCCESS then
    if lib.interface_create.1 = hdr.VTUM_STATUS_SUCCESS then
      { events :=
          [Event.call Call.vtum_library_initialize lib.library_initialize,
           Event.library_version,
           Event.printf ⟨"VT library version: %s\n", [Arg.buf lib.library_version]⟩,
           Event.call Call.vtum_interface_create lib.interface_create.1,
           Event.call (Call.vtum_interface_driver_version (main_handle lib))
             (lib.driver_version (main_handle lib)).1,
           Event.call (Call.vtum_interface_driver_features (main_handle lib))
             (lib.driver_features (main_handle lib)).1,
           Event.printf ⟨"Using driver %s version %d.%d.%d.\n",
             [Arg.buf (lib.driver_version (main_handle lib)).2.application_name,
              Arg.num (lib.driver_version (main_handle lib)).2.version_major,
              Arg.num (lib.driver_version (main_handle lib)).2.version_minor,
              Arg.num (lib.driver_version (main_handle lib)).2.version_patch]⟩],
        memory := store64 m env.addr_target_value 0xDEADBEEF,
        stopped := false }
    else
      { events :=
          [Event.call Call.vtum_library_initialize lib.library_initialize,
           Event.library_version,
           Event.printf ⟨"VT library version: %s\n", [Arg.buf lib.library_version]⟩,
           Event.call Call.vtum_interface_create lib.interface_create.1,
           failure_line "failed to create a new interface" lib.interface_create.1],
        memory := m,
        stopped := true }
  else
    { events :=
        [Event.call Call.vtum_library_initialize lib.library_initialize,
         failure_line "failed to initialize lib" lib.library_initialize],
      memory := m,
      stopped := true }

/-- Lines 55-68. -/
def read_segment (hdr : Header) (env : Env) (lib : Lib) (m : Mem) : Segment :=
  if has_feature (main_features lib) hdr.DRIVER_FEATURE_MEMORY_READ then
    let r := lib.memory_read (main_handle lib) env.current_process_id
      (main_directory_table hdr env) env.addr_target_value env.addr_read_buffer sizeof_uint64_t
      (store64 m env.addr_read_buffer 0x00)
    let c := Event.call (Call.vtum_interface_memory_read (main_handle lib) env.current_process_id
      (main_directory_table hdr env) env.addr_target_value env.addr_read_buffer sizeof_uint64_t) r.1
    if r.1 = hdr.VTUM_STATUS_SUCCESS then
      { events := [c, Event.printf ⟨"Read variable value: %llx\n",
          [Arg.num (load64 r.2 env.addr_read_buffer)]⟩],
        memory := r.2, stopped := false }
    else
      { events := [c, failure_line "read dummy variable" r.1], memory := r.2, stopped := true }
  else
    { events := [Event.printf ⟨"Driver does not support reading memory\n", []⟩],
      memory := m, stopped := false }

/-- Lines 70-83. -/
def write_segment (hdr : Header) (env : Env) (lib : Lib) (m : Mem) : Segment :=
  if has_feature (main_features lib) hdr.DRIVER_FEATURE_MEMORY_WRITE then
    let r := lib.memory_write (main_handle lib) env.current_process_id
      (main_directory_table hdr env) env.addr_target_value env.addr_new_value sizeof_uint64_t
      (store64 m env.addr_new_value 0xB00BB00B)
    let c := Event.call (Call.vtum_interface_memory_write (main_handle lib) env.current_process_id
      (main_directory_table hdr env) env.addr_target_value env.addr_new_value sizeof_uint64_t) r.1
    if r.1 = hdr.VTUM_STATUS_SUCCESS then
      { events := [c, Event.printf ⟨"Write variable value: %llx\n",
          [Arg.num (load64 r.2 env.addr_target_value)]⟩],
        memory := r.2, stopped := false }
    else
      { events := [c, failure_line "write dummy variable" r.1], memory := r.2, stopped := true }
  else
    { events := [Event.printf ⟨"Driver does not support writing memory\n", []⟩],
      memory := m, stopped := false }

/-- Lines 85-90. -/
def process_list_segment (hdr : Header) (env : Env) (lib : Lib) (m : Mem) : Segment :=
  if has_feature (main_features lib) hdr.DRIVER_FEATURE_PROCESS_LIST then
    let r := lib.process_list (main_handle lib) (print_process env.uninit_image_base_name)
    let c := [Event.printf ⟨"Current process list:\n", []⟩,
      Event.call (Call.vtum_interface_process_list (main_handle lib)) r.1] ++
      r.2.map Event.visitor_printf
    if r.1 = hdr.VTUM_STATUS_SUCCESS then
      { events := c, memory := m, stopped := false }
    else
      { events := c ++ [failure_line "iterate processes" r.1], memory := m, stopped := true }
  else
    { events := [Event.printf ⟨"Driver does not support iterating processes\n", []⟩],
      memory := m, stopped := false }

/-- Lines 92-99. -/
def process_modules_segment (hdr : Header) (env : Env) (lib : Lib) (m : Mem) : Segment :=
  if has_feature (main_features lib) hdr.DRIVER_FEATURE_PROCESS_MODULES then
    let r := lib.process_module_list (main_handle lib) env.current_process_id
      (main_directory_table hdr env) print_process_module
    let c := [Event.printf ⟨"Current processes modules:\n", []⟩,
      Event.call (Call.vtum_interface_process_module_list (main_handle lib)
        env.current_process_id (main_directory_table hdr env)) r.1] ++
      r.2.map Event.visitor_printf
    if r.1 = hdr.VTUM_STATUS_SUCCESS then
      { events := c, memory := m, stopped := false }
    else
      { events := c ++ [failure_line "iterate processes" r.1], memory := m, stopped := true }
  else
    { events := [Event.printf ⟨"Driver does not support iterating modules\n", []⟩],
      memory := m, stopped := false }

/-- Lines 85-99. -/
def from_process_list (hdr : Header) (env : Env) (lib : Lib) (m : Mem) : Segment :=
  (process_list_segment hdr env lib m).andThen (process_modules_segment hdr env lib)

/-- Lines 70-99. -/
def from_write (hdr : Header) (env : Env) (lib : Lib) (m : Mem) : Segment :=
  (write_segment hdr env lib m).andThen (from_process_list hdr env lib)

/-- Lines 55-99. -/
def from_read (hdr : Header) (env : Env) (lib : Lib) (m : Mem) : Segment :=
  (read_segment hdr env lib m).andThen (from_write hdr env lib)

/-- All of `main`. -/
def main_segment (hdr : Header) (env : Env) (lib : Lib) (m : Mem) : Segment :=
  (prelude_segment hdr env lib m).andThen (from_read hdr env lib)

/-- A stretch stops the process exactly when one of its calls failed, and
calls nothing after a failed call. -/
def Segment.stops_at_failure (success : Nat) (a : Segment) : Prop :=
  (a.stopped = true ↔ ∃ e ∈ a.events, failed_call success e = true) ∧
  quiet_after_failure success a.events = true

theorem andThen_returns {σ α β : Type} (a : α) (s : σ) (f : α → σ → Flow σ β) :
    (Flow.returns a s).andThen f = f a s := rfl

theorem andThen_exits {σ α β : Type} (c : Nat) (s : σ) (f : α → σ → Flow σ β) :
    (Flow.exits c s : Flow σ α).andThen f = Flow.exits c s := rfl

theorem ite_andThen {σ α β : Type} (c : Prop) [Decidable c] (x y : Flow σ α)
    (f : α → σ → Flow σ β) :
    (if c then x else y).andThen f = if c then x.andThen f else y.andThen f := by
  split_ifs <;> rfl

theorem bind_apply {α β : Type} (x : Prog α) (f : α → Prog β) (s : Machine) :
    (x >>= f) s = (x s).andThen f := rfl

theorem pure_apply {α : Type} (a : α) (s : Machine) :
    (pure a : Prog α) s = Flow.returns a s := rfl

theorem ite_prog_apply {α : Type} (c : Prop) [Decidable c] (x y : Prog α) (s : Machine) :
    (if c then x else y) s = if c then x s else y s := by
  split_ifs <;> rfl

theorem check_status_exit_apply (hdr : Header) (status : Nat) (message : String) (s : Machine) :
    check_status_exit hdr status message s =
      if status = hdr.VTUM_STATUS_SUCCESS then Flow.returns () s
      else Flow.exits EXIT_FAILURE { s with trace := s.trace ++ [failure_line message status] } := by
  unfold check_status_exit
  split_ifs with h <;>
    simp [bind_apply, pure_apply, h, printf, exit, andThen_returns, failure_line]

/-! ## `check_status_exit` -/

/-- C1: `check_status_exit` treats `VTUM_STATUS_SUCCESS` as the single non-error
value.  For every status and message, from every state: it returns to its
caller if and only if the status is `VTUM_STATUS_SUCCESS`, and then the state
is unchanged (nothing is printed); for every other status, and only then, it
prints the failure line with the message and the status and ends the process
with `EXIT_FAILURE`. -/
theorem check_status_exit_returns_iff_success (hdr : Header) (status : Nat) (message : String)
    (s : Machine) :
    ((∃ s', check_status_exit hdr status message s = Flow.returns () s') ↔
      status = hdr.VTUM_STATUS_SUCCESS) ∧
    (check_status_exit hdr status message s = Flow.returns () s ↔
      status = hdr.VTUM_STATUS_SUCCESS) ∧
    (check_status_exit hdr status message s =
        Flow.exits EXIT_FAILURE
          { s with trace := s.trace ++
              [Event.printf ⟨"failed to %s. status: %x\n", [Arg.str message, Arg.num status]⟩] } ↔
      status ≠ hdr.VTUM_STATUS_SUCCESS) := by
  rw [check_status_exit_apply]
  by_cases h : status = hdr.VTUM_STATUS_SUCCESS <;> simp [h, failure_line]

/-! ## `print_process` -/

theorem takeWhile_append_stop (l : List Nat) :
    (l ++ [0]).takeWhile (· ≠ 0) = l.takeWhile (· ≠ 0) := by
  induction l with
  | nil => simp
  | cons a l ih =>
    by_cases h : a = 0
    · simp [List.takeWhile, h]
    · simpa [List.takeWhile, h] using ih

theorem takeWhile_take_of_mem (n : Nat) (l : List Nat) (h : 0 ∈ l.take n) :
    (l.take n).takeWhile (· ≠ 0) = l.takeWhile (· ≠ 0) := by
  induction l generalizing n with
  | nil => simp
  | cons a l ih =>
    cases n with
    | zero => simp at h
    | succ n =>
      by_cases ha : a = 0
      · simp [List.takeWhile, ha]
      · have h' : 0 ∈ l.take n := by
          simp only [List.take_succ_cons, List.mem_cons] at h
          rcases h with h | h
          · exact absurd h.symm ha
          · exact h
        simpa [List.takeWhile, ha] using ih n h'

theorem print_process_buffer (uninit : Nat → Nat) :
    ((List.ofFn (fun i : Fin 16 => uninit i)).set 15 0x00).drop 15 = [0] := by
  simp [List.ofFn_succ]

/-- C7: `print_process` copes with an `image_base_name` that is not
NUL-terminated.  For every record whose `image_base_name` holds at least the
15 bytes `memcpy` reads, whatever the local buffer held before: the buffer
that is printed has 16 bytes, the bytes 0..14 of `image_base_name` at indices
0..14 and 0x00 at index 15; the string `%s` prints ends within the buffer, has
length at most 15, and is `image_base_name` up to its first NUL byte when one
of the first 15 bytes is NUL, and the first 15 bytes otherwise; the record is
left as it was. -/
theorem print_process_copes_with_unterminated_name (uninit : Nat → Nat) (info : ProcessInfo)
    (h : 15 ≤ info.image_base_name.length) :
    ∃ buffer text,
      print_process uninit info =
        some { value := true,
               lines := [⟨" - %u %s (directory table base = 0x%llX)\n",
                 [Arg.num info.process_id, Arg.buf buffer, Arg.num info.directory_table_base]⟩],
               info := info } ∧
      buffer.length = 16 ∧
      (∀ i, i < 15 → buffer[i]? = info.image_base_name[i]?) ∧
      buffer[15]? = some 0x00 ∧
      c_string buffer = some text ∧
      text.length ≤ 15 ∧
      text = (info.image_base_name.take 15).takeWhile (· ≠ 0) ∧
      (0 ∈ info.image_base_name.take 15 → text = info.image_base_name.takeWhile (· ≠ 0)) ∧
      (0 ∉ info.image_base_name.take 15 → text = info.image_base_name.take 15) := by
  have hlen : (info.image_base_name.take 15).length = 15 := by
    rw [List.length_take]; omega
  refine ⟨info.image_base_name.take 15 ++ [0],
    (info.image_base_name.take 15).takeWhile (· ≠ 0), ?_, ?_, ?_, ?_, ?_, ?_, rfl, ?_, ?_⟩
  · simp only [print_process, memcpy, print_process_buffer]
    simp [h]
  · simp [hlen]
  · intro i hi
    rw [List.getElem?_append_left (by omega), List.getElem?_take_of_lt hi]
  · rw [List.getElem?_append_right (by omega)]
    simp [hlen]
  · simp only [c_string, List.mem_append, List.mem_singleton, or_true, if_true,
      takeWhile_append_stop]
  · calc ((info.image_base_name.take 15).takeWhile (· ≠ 0)).length
        ≤ (info.image_base_name.take 15).length := (List.takeWhile_sublist _).length_le
      _ = 15 := hlen
  · intro h0
    exact takeWhile_take_of_mem 15 _ h0
  · intro h0
    rw [List.takeWhile_eq_self_iff]
    intro x hx
    have : x ≠ 0 := fun hx0 => h0 (hx0 ▸ hx)
    simpa using this

theorem print_process_copes_with_unterminated_name_witness :
    ∃ buffer text,
      print_process example_env.uninit_image_base_name example_process =
        some { value := true,
               lines := [⟨" - %u %s (directory table base = 0x%llX)\n",
                 [Arg.num example_process.process_id, Arg.buf buffer,
                  Arg.num example_process.directory_table_base]⟩],
               info := example_process } ∧
      buffer.length = 16 ∧
      (∀ i, i < 15 → buffer[i]? = example_process.image_base_name[i]?) ∧
      buffer[15]? = some 0x00 ∧
      c_string buffer = some text ∧
      text.length ≤ 15 ∧
      text = (example_process.image_base_name.take 15).takeWhile (· ≠ 0) ∧
      (0 ∈ example_process.image_base_name.take 15 →
        text = example_process.image_base_name.takeWhile (· ≠ 0)) ∧
      (0 ∉ example_process.image_base_name.take 15 →
        text = example_process.image_base_name.take 15) :=
  print_process_copes_with_unterminated_name example_env.uninit_image_base_name example_process
    (by decide)

/-! ## The visitors and the enumeration -/

theorem print_process_returns_true (uninit : Nat → Nat) (info : ProcessInfo) (v : Visit ProcessInfo)
    (h : print_process uninit info = some v) : v.value = true := by
  simp only [print_process] at h
  split at h
  · cases h
  · cases h; rfl

theorem print_process_defined (uninit : Nat → Nat) (info : ProcessInfo)
    (h : 15 ≤ info.image_base_name.length) : ∃ v, print_process uninit info = some v := by
  simp [print_process, memcpy, h]

theorem enumerate_all_true {α : Type} (visitor : α → Option (Visit α)) (records : List α)
    (h : ∀ r ∈ records, ∃ v, visitor r = some v ∧ v.value = true) :
    ∃ lines, enumerate visitor records = some (records.length, lines) := by
  induction records with
  | nil => exact ⟨[], rfl⟩
  | cons r rs ih =>
    obtain ⟨v, hv, hval⟩ := h r (List.mem_cons_self r rs)
    obtain ⟨lines, hl⟩ := ih (fun x hx => h x (List.mem_cons_of_mem r hx))
    exact ⟨v.lines ++ lines, by simp [enumerate, hv, hval, hl]⟩

/-- C8: the visitors never stop an enumeration.  `print_process` returns true
for every record it is defined on (and is defined on every record with at
least 15 bytes of name), `print_process_module` returns true for every record;
hence an enumeration that stops the first time the visitor returns false
invokes the visitor once per record: `records.length` times for
`print_process`, `modules.length` times for `print_process_module`. -/
theorem visitors_never_stop_an_enumeration (uninit : Nat → Nat) (records : List ProcessInfo)
    (modules : List ProcessModuleInfo)
    (h : ∀ r ∈ records, 15 ≤ r.image_base_name.length) :
    (∀ r ∈ records, ∃ v, print_process uninit r = some v ∧ v.value = true) ∧
    (∀ (info : ProcessInfo) (v : Visit ProcessInfo),
      print_process uninit info = some v → v.value = true) ∧
    (∀ info : ProcessModuleInfo, (print_process_module info).value = true) ∧
    (∃ lines, enumerate (print_process uninit) records = some (records.length, lines)) ∧
    (∃ lines, enumerate (fun r => some (print_process_module r)) modules =
      some (modules.length, lines)) := by
  have h1 : ∀ r ∈ records, ∃ v, print_process uninit r = some v ∧ v.value = true := by
    intro r hr
    obtain ⟨v, hv⟩ := print_process_defined uninit r (h r hr)
    exact ⟨v, hv, print_process_returns_true uninit r v hv⟩
  refine ⟨h1, fun info v hv => print_process_returns_true uninit info v hv, fun _ => rfl,
    enumerate_all_true _ _ h1, enumerate_all_true _ _ ?_⟩
  intro r _
  exact ⟨print_process_module r, rfl, rfl⟩

theorem visitors_never_stop_witness :
    (∃ lines, enumerate (print_process example_env.uninit_image_base_name) example_processes =
      some (2, lines)) ∧
    (∃ lines, enumerate (fun r => some (print_process_module r)) example_modules =
      some (1, lines)) :=
  ⟨(visitors_never_stop_an_enumeration example_env.uninit_image_base_name example_processes
      example_modules (by decide)).2.2.2.1,
   (visitors_never_stop_an_enumeration example_env.uninit_image_base_name example_processes
      example_modules (by decide)).2.2.2.2⟩

/-! ## The run of `main` is the run of its segments -/

theorem Segment.extend_mk (e e2 : List Event) (m : Mem) (b : Bool) :
    Segment.extend e { events := e2, memory := m, stopped := b } =
      { events := e ++ e2, memory := m, stopped := b } := rfl

theorem Segment.extend_ite (e : List Event) (c : Prop) [Decidable c] (x y : Segment) :
    Segment.extend e (if c then x else y) =
      if c then Segment.extend e x else Segment.extend e y := by
  split_ifs <;> rfl

theorem Segment.andThen_mk_false (e : List Event) (m : Mem) (b : Mem → Segment) :
    Segment.andThen { events := e, memory := m, stopped := false } b = Segment.extend e (b m) := by
  simp [Segment.andThen]

theorem Segment.andThen_mk_true (e : List Event) (m : Mem) (b : Mem → Segment) :
    Segment.andThen { events := e, memory := m, stopped := true } b =
      { events := e, memory := m, stopped := true } := by
  simp [Segment.andThen]

theorem Segment.andThen_ite (c : Prop) [Decidable c] (x y : Segment) (b : Mem → Segment) :
    Segment.andThen (if c then x else y) b =
      if c then Segment.andThen x b else Segment.andThen y b := by
  split_ifs <;> rfl

theorem Segment.flow_mk_false (e : List Event) (m : Mem) :
    Segment.flow { events := e, memory := m, stopped := false } =
      Flow.returns 0 { trace := e, memory := m } := by
  simp [Segment.flow]

theorem Segment.flow_mk_true (e : List Event) (m : Mem) :
    Segment.flow { events := e, memory := m, stopped := true } =
      Flow.exits EXIT_FAILURE { trace := e, memory := m } := by
  simp [Segment.flow]

theorem Segment.flow_ite (c : Prop) [Decidable c] (x y : Segment) :
    Segment.flow (if c then x else y) = if c then Segment.flow x else Segment.flow y := by
  split_ifs <;> rfl

set_option maxHeartbeats 4000000 in
/-- The run of `main` is the run its segments describe. -/
theorem main_eq_segments (hdr : Header) (env : Env) (lib : Lib) (mem : Mem) :
    main hdr env lib (Machine.start mem) = (main_segment hdr env lib mem).flow := by
  simp only [main, Machine.start, bind_apply, pure_apply, check_status_exit_apply,
    ite_prog_apply, andThen_returns, andThen_exits, ite_andThen,
    vtum_library_initialize, called, printf, vtum_library_version, vtum_interface_create,
    vtum_interface_driver_version, vtum_interface_driver_features, vtum_interface_memory_read,
    vtum_interface_memory_write, vtum_interface_process_list,
    vtum_interface_process_module_list, emit, store, load, List.nil_append, List.append_assoc,
    List.cons_append,
    main_segment, from_read, from_write, from_process_list,
    prelude_segment, read_segment, write_segment, process_list_segment,
    process_modules_segment, main_features, main_handle, main_directory_table,
    Segment.extend_mk, Segment.extend_ite, Segment.andThen_mk_false, Segment.andThen_mk_true,
    Segment.andThen_ite, Segment.flow_mk_false, Segment.flow_mk_true, Segment.flow_ite]

theorem Segment.flow_trace (a : Segment) : a.flow.state.trace = a.events := by
  unfold Segment.flow; split_ifs <;> rfl

theorem Segment.flow_outcome (a : Segment) :
    a.flow.outcome = if a.stopped then Outcome.exited EXIT_FAILURE else Outcome.returned 0 := by
  unfold Segment.flow; split_ifs <;> rfl

theorem main_trace_eq (hdr : Header) (env : Env) (lib : Lib) (mem : Mem) :
    main_trace hdr env lib mem = (main_segment hdr env lib mem).events := by
  rw [main_trace, main_eq_segments, Segment.flow_trace]

theorem main_outcome_eq (hdr : Header) (env : Env) (lib : Lib) (mem : Mem) :
    main_outcome hdr env lib mem =
      if (main_segment hdr env lib mem).stopped then Outcome.exited EXIT_FAILURE
      else Outcome.returned 0 := by
  rw [main_outcome, main_eq_segments, Segment.flow_outcome]

theorem Segment.andThen_events (a : Segment) (b : Mem → Segment) :
    (a.andThen b).events = a.events ++ if a.stopped then [] else (b a.memory).events := by
  unfold Segment.andThen
  split_ifs <;> simp [Segment.extend]

theorem Segment.andThen_stopped (a : Segment) (b : Mem → Segment) :
    (a.andThen b).stopped = (a.stopped || (b a.memory).stopped) := by
  unfold Segment.andThen
  split_ifs with h <;> simp [Segment.extend, h]

theorem Segment.andThen_all (Q : Event → Prop) (a : Segment) (b : Mem → Segment)
    (ha : ∀ e ∈ a.events, Q e) (hb : ∀ m, ∀ e ∈ (b m).events, Q e) :
    ∀ e ∈ (a.andThen b).events, Q e := by
  intro e he
  rw [Segment.andThen_events, List.mem_append] at he
  rcases he with he | he
  · exact ha e he
  · split_ifs at he
    · simp at he
    · exact hb _ e he

/-- What holds of every event of the parts of `main` holds of every event of a run. -/
theorem from_read_all (hdr : Header) (env : Env) (lib : Lib) (Q : Event → Prop)
    (hr : ∀ m, ∀ e ∈ (read_segment hdr env lib m).events, Q e)
    (hw : ∀ m, ∀ e ∈ (write_segment hdr env lib m).events, Q e)
    (hl : ∀ m, ∀ e ∈ (process_list_segment hdr env lib m).events, Q e)
    (hm : ∀ m, ∀ e ∈ (process_modules_segment hdr env lib m).events, Q e) :
    ∀ m, ∀ e ∈ (from_read hdr env lib m).events, Q e := by
  intro m
  refine Segment.andThen_all Q _ _ (hr m) fun m => ?_
  refine Segment.andThen_all Q _ _ (hw m) fun m => ?_
  exact Segment.andThen_all Q _ _ (hl m) hm

theorem main_trace_all (hdr : Header) (env : Env) (lib : Lib) (mem : Mem) (Q : Event → Prop)
    (hp : ∀ m, ∀ e ∈ (prelude_segment hdr env lib m).events, Q e)
    (hr : ∀ m, ∀ e ∈ (read_segment hdr env lib m).events, Q e)
    (hw : ∀ m, ∀ e ∈ (write_segment hdr env lib m).events, Q e)
    (hl : ∀ m, ∀ e ∈ (process_list_segment hdr env lib m).events, Q e)
    (hm : ∀ m, ∀ e ∈ (process_modules_segment hdr env lib m).events, Q e) :
    ∀ e ∈ main_trace hdr env lib mem, Q e := by
  rw [main_trace_eq]
  exact Segment.andThen_all Q _ _ (hp mem) (from_read_all hdr env lib Q hr hw hl hm)

/-! ## The calls of each part of `main` -/

theorem call_mem_prelude (hdr : Header) (env : Env) (lib : Lib) (m : Mem) (c : Call) (st : Nat)
    (h : Event.call c st ∈ (prelude_segment hdr env lib m).events) :
    c = Call.vtum_library_initialize ∨ c = Call.vtum_interface_create ∨
    c = Call.vtum_interface_driver_version (main_handle lib) ∨
    c = Call.vtum_interface_driver_features (main_handle lib) := by
  simp only [prelude_segment] at h
  split_ifs at h <;> simp [failure_line] at h <;> tauto

theorem call_mem_read (hdr : Header) (env : Env) (lib : Lib) (m : Mem) (c : Call) (st : Nat)
    (h : Event.call c st ∈ (read_segment hdr env lib m).events) :
    has_feature (main_features lib) hdr.DRIVER_FEATURE_MEMORY_READ = true ∧
    c = Call.vtum_interface_memory_read (main_handle lib) env.current_process_id
      (main_directory_table hdr env) env.addr_target_value env.addr_read_buffer
      sizeof_uint64_t := by
  simp only [read_segment] at h
  split_ifs at h with h1 h2 <;> simp [failure_line] at h <;> simp [h, h1]

theorem call_mem_write (hdr : Header) (env : Env) (lib : Lib) (m : Mem) (c : Call) (st : Nat)
    (h : Event.call c st ∈ (write_segment hdr env lib m).events) :
    has_feature (main_features lib) hdr.DRIVER_FEATURE_MEMORY_WRITE = true ∧
    c = Call.vtum_interface_memory_write (main_handle lib) env.current_process_id
      (main_directory_table hdr env) env.addr_target_value env.addr_new_value
      sizeof_uint64_t := by
  simp only [write_segment] at h
  split_ifs at h with h1 h2 <;> simp [failure_line] at h <;> simp [h, h1]

theorem call_mem_process_list (hdr : Header) (env : Env) (lib : Lib) (m : Mem) (c : Call)
    (st : Nat) (h : Event.call c st ∈ (process_list_segment hdr env lib m).events) :
    has_feature (main_features lib) hdr.DRIVER_FEATURE_PROCESS_LIST = true ∧
    c = Call.vtum_interface_process_list (main_handle lib) := by
  simp only [process_list_segment] at h
  split_ifs at h with h1 h2 <;> simp [failure_line] at h <;> simp [h, h1]

theorem call_mem_process_modules (hdr : Header) (env : Env) (lib : Lib) (m : Mem) (c : Call)
    (st : Nat) (h : Event.call c st ∈ (process_modules_segment hdr env lib m).events) :
    has_feature (main_features lib) hdr.DRIVER_FEATURE_PROCESS_MODULES = true ∧
    c = Call.vtum_interface_process_module_list (main_handle lib) env.current_process_id
      (main_directory_table hdr env) := by
  simp only [process_modules_segment] at h
  split_ifs at h with h1 h2 <;> simp [failure_line] at h <;> simp [h, h1]

/-- Every call of a run of `main` is one of the eight calls of its text, and a feature
operation is called only when its feature test passed. -/
theorem call_mem_main_trace (hdr : Header) (env : Env) (lib : Lib) (mem : Mem) (c : Call)
    (st : Nat) (h : Event.call c st ∈ main_trace hdr env lib mem) : main_call hdr env lib c := by
  refine main_trace_all hdr env lib mem
    (fun e => ∀ c st, e = Event.call c st → main_call hdr env lib c) ?_ ?_ ?_ ?_ ?_ _ h c st rfl
  · intro m e he c st hc; subst hc
    have := call_mem_prelude hdr env lib m c st he
    unfold main_call; tauto
  · intro m e he c st hc; subst hc
    have := call_mem_read hdr env lib m c st he
    unfold main_call; tauto
  · intro m e he c st hc; subst hc
    have := call_mem_write hdr env lib m c st he
    unfold main_call; tauto
  · intro m e he c st hc; subst hc
    have := call_mem_process_list hdr env lib m c st he
    unfold main_call; tauto
  · intro m e he c st hc; subst hc
    have := call_mem_process_modules hdr env lib m c st he
    unfold main_call; tauto

theorem has_feature_iff (bits mask : Nat) : has_feature bits mask = true ↔ bits &&& mask ≠ 0 := by
  simp [has_feature]

theorem has_feature_two_pow (bits k : Nat) : has_feature bits (2 ^ k) = bits.testBit k := by
  cases hb : bits.testBit k
  · have : bits &&& 2 ^ k = 0 := by
      apply Nat.eq_of_testBit_eq
      intro i
      by_cases hi : k = i
      · subst hi; simp [Nat.testBit_and, hb]
      · simp [Nat.testBit_and, Nat.testBit_two_pow, hi]
    simp [has_feature, this]
  · have : (bits &&& 2 ^ k).testBit k = true := by
      simp [Nat.testBit_and, hb, Nat.testBit_two_pow_self]
    have hne : bits &&& 2 ^ k ≠ 0 := by
      intro h0
      rw [h0] at this
      simp at this
    simp [has_feature, hne]

theorem reached_append_left (f : Feature) (l1 l2 : List Event) (h : reached f l1) :
    reached f (l1 ++ l2) := by
  unfold reached functions at *
  rcases h with h | h
  · exact Or.inl (List.mem_append_left _ h)
  · exact Or.inr (by rw [List.filterMap_append]; exact List.mem_append_left _ h)

theorem reached_append_right (f : Feature) (l1 l2 : List Event) (h : reached f l2) :
    reached f (l1 ++ l2) := by
  unfold reached functions at *
  rcases h with h | h
  · exact Or.inl (List.mem_append_right _ h)
  · exact Or.inr (by rw [List.filterMap_append]; exact List.mem_append_right _ h)

theorem read_segment_reached (hdr : Header) (env : Env) (lib : Lib) (m : Mem) :
    reached Feature.MEMORY_READ (read_segment hdr env lib m).events := by
  simp only [read_segment, reached]
  split_ifs <;>
    simp [functions, Event.function, Call.function, Feature.unsupported_line, Feature.operation]

theorem write_segment_reached (hdr : Header) (env : Env) (lib : Lib) (m : Mem) :
    reached Feature.MEMORY_WRITE (write_segment hdr env lib m).events := by
  simp only [write_segment, reached]
  split_ifs <;>
    simp [functions, Event.function, Call.function, Feature.unsupported_line, Feature.operation]

theorem process_list_segment_reached (hdr : Header) (env : Env) (lib : Lib) (m : Mem) :
    reached Feature.PROCESS_LIST (process_list_segment hdr env lib m).events := by
  simp only [process_list_segment, reached]
  split_ifs <;>
    simp [functions, Event.function, Call.function, Feature.unsupported_line, Feature.operation]

theorem process_modules_segment_reached (hdr : Header) (env : Env) (lib : Lib) (m : Mem) :
    reached Feature.PROCESS_MODULES (process_modules_segment hdr env lib m).events := by
  simp only [process_modules_segment, reached]
  split_ifs <;>
    simp [functions, Event.function, Call.function, Feature.unsupported_line, Feature.operation]

theorem Segment.andThen_reached (f : Feature) (a : Segment) (b : Mem → Segment)
    (h : reached f a.events) : reached f (a.andThen b).events := by
  rw [Segment.andThen_events]
  exact reached_append_left f _ _ h

/-- A line that the first stretch prints only when it goes on is followed by the second
stretch. -/
theorem Segment.andThen_continues (e : Event) (G : List Event → Prop)
    (hG : ∀ l1 l2, G l2 → G (l1 ++ l2)) (a : Segment) (b : Mem → Segment)
    (ha : e ∈ a.events → a.stopped = false) (hb : ∀ m, G (b m).events)
    (h : e ∈ (a.andThen b).events) : G (a.andThen b).events := by
  rw [Segment.andThen_events] at h ⊢
  apply hG
  rw [List.mem_append] at h
  rcases h with h | h
  · simp [ha h, hb]
  · split_ifs at h ⊢
    · simp at h
    · exact hb _

/-- What follows from a line in the second stretch follows from the line in both, when the first
stretch does not print it. -/
theorem Segment.andThen_lift (e : Event) (G : List Event → Prop)
    (hG : ∀ l1 l2, G l2 → G (l1 ++ l2)) (a : Segment) (b : Mem → Segment)
    (ha : e ∉ a.events) (hb : ∀ m, e ∈ (b m).events → G (b m).events)
    (h : e ∈ (a.andThen b).events) : G (a.andThen b).events := by
  rw [Segment.andThen_events] at h ⊢
  apply hG
  rw [List.mem_append] at h
  rcases h with h | h
  · exact absurd h ha
  · split_ifs at h ⊢
    · simp at h
    · exact hb _ h

theorem Segment.andThen_lift_stopped (e : Event) (a : Segment) (b : Mem → Segment)
    (ha : e ∉ a.events) (hb : ∀ m, e ∈ (b m).events → (b m).stopped = false)
    (h : e ∈ (a.andThen b).events) : (a.andThen b).stopped = false := by
  rw [Segment.andThen_events, List.mem_append] at h
  rw [Segment.andThen_stopped]
  rcases h with h | h
  · exact absurd h ha
  · split_ifs at h with hs
    · simp at h
    · simp [hs, hb _ h]

/-- Where the line for a missing feature can stand. -/
theorem unsupported_line_mem_prelude (hdr : Header) (env : Env) (lib : Lib) (m : Mem)
    (f : Feature) : f.unsupported_line ∉ (prelude_segment hdr env lib m).events := by
  simp only [prelude_segment]
  cases f <;> split_ifs <;> simp [Feature.unsupported_line, failure_line]

theorem unsupported_line_mem_read (hdr : Header) (env : Env) (lib : Lib) (m : Mem)
    (f : Feature) (h : f.unsupported_line ∈ (read_segment hdr env lib m).events) :
    f = Feature.MEMORY_READ ∧
    has_feature (main_features lib) hdr.DRIVER_FEATURE_MEMORY_READ = false ∧
    (read_segment hdr env lib m).stopped = false := by
  simp only [read_segment] at h ⊢
  cases f <;> split_ifs at h ⊢ <;> simp_all [Feature.unsupported_line, failure_line]

theorem unsupported_line_mem_write (hdr : Header) (env : Env) (lib : Lib) (m : Mem)
    (f : Feature) (h : f.unsupported_line ∈ (write_segment hdr env lib m).events) :
    f = Feature.MEMORY_WRITE ∧
    has_feature (main_features lib) hdr.DRIVER_FEATURE_MEMORY_WRITE = false ∧
    (write_segment hdr env lib m).stopped = false := by
  simp only [write_segment] at h ⊢
  cases f <;> split_ifs at h ⊢ <;> simp_all [Feature.unsupported_line, failure_line]

theorem unsupported_line_mem_process_list (hdr : Header) (env : Env) (lib : Lib) (m : Mem)
    (f : Feature) (h : f.unsupported_line ∈ (process_list_segment hdr env lib m).events) :
    f = Feature.PROCESS_LIST ∧
    has_feature (main_features lib) hdr.DRIVER_FEATURE_PROCESS_LIST = false ∧
    (process_list_segment hdr env lib m).stopped = false := by
  simp only [process_list_segment] at h ⊢
  cases f <;> split_ifs at h ⊢ <;> simp_all [Feature.unsupported_line, failure_line]

theorem unsupported_line_mem_process_modules (hdr : Header) (env : Env) (lib : Lib) (m : Mem)
    (f : Feature) (h : f.unsupported_line ∈ (process_modules_segment hdr env lib m).events) :
    f = Feature.PROCESS_MODULES ∧
    has_feature (main_features lib) hdr.DRIVER_FEATURE_PROCESS_MODULES = false ∧
    (process_modules_segment hdr env lib m).stopped = false := by
  simp only [process_modules_segment] at h ⊢
  cases f <;> split_ifs at h ⊢ <;> simp_all [Feature.unsupported_line, failure_line]

theorem unsupported_line_gate (hdr : Header) (env : Env) (lib : Lib) (mem : Mem) (f : Feature)
    (h : f.unsupported_line ∈ main_trace hdr env lib mem) :
    has_feature (main_features lib) (f.bits hdr) = false := by
  refine main_trace_all hdr env lib mem
    (fun e => ∀ f : Feature, e = f.unsupported_line →
      has_feature (main_features lib) (f.bits hdr) = false) ?_ ?_ ?_ ?_ ?_ _ h f rfl
  · intro m e he f hf; subst hf
    exact absurd he (unsupported_line_mem_prelude hdr env lib m f)
  · intro m e he f hf; subst hf
    obtain ⟨rfl, hg, _⟩ := unsupported_line_mem_read hdr env lib m f he
    exact hg
  · intro m e he f hf; subst hf
    obtain ⟨rfl, hg, _⟩ := unsupported_line_mem_write hdr env lib m f he
    exact hg
  · intro m e he f hf; subst hf
    obtain ⟨rfl, hg, _⟩ := unsupported_line_mem_process_list hdr env lib m f he
    exact hg
  · intro m e he f hf; subst hf
    obtain ⟨rfl, hg, _⟩ := unsupported_line_mem_process_modules hdr env lib m f he
    exact hg

theorem from_write_reached (hdr : Header) (env : Env) (lib : Lib) (m : Mem) :
    reached Feature.MEMORY_WRITE (from_write hdr env lib m).events :=
  Segment.andThen_reached _ _ _ (write_segment_reached hdr env lib m)

theorem from_process_list_reached (hdr : Header) (env : Env) (lib : Lib) (m : Mem) :
    reached Feature.PROCESS_LIST (from_process_list hdr env lib m).events :=
  Segment.andThen_reached _ _ _ (process_list_segment_reached hdr env lib m)

theorem from_read_reached (hdr : Header) (env : Env) (lib : Lib) (m : Mem) :
    reached Feature.MEMORY_READ (from_read hdr env lib m).events :=
  Segment.andThen_reached _ _ _ (read_segment_reached hdr env lib m)

theorem main_continues_after_read (hdr : Header) (env : Env) (lib : Lib) (mem : Mem)
    (h : Feature.MEMORY_READ.unsupported_line ∈ main_trace hdr env lib mem) :
    reached Feature.MEMORY_WRITE (main_trace hdr env lib mem) := by
  rw [main_trace_eq] at h ⊢
  refine Segment.andThen_lift _ _ (reached_append_right _) _ _
    (unsupported_line_mem_prelude hdr env lib mem _) (fun m hm => ?_) h
  exact Segment.andThen_continues _ _ (reached_append_right _) _ _
    (fun hr => (unsupported_line_mem_read hdr env lib m _ hr).2.2)
    (from_write_reached hdr env lib) hm

theorem main_continues_after_write (hdr : Header) (env : Env) (lib : Lib) (mem : Mem)
    (h : Feature.MEMORY_WRITE.unsupported_line ∈ main_trace hdr env lib mem) :
    reached Feature.PROCESS_LIST (main_trace hdr env lib mem) := by
  rw [main_trace_eq] at h ⊢
  refine Segment.andThen_lift _ _ (reached_append_right _) _ _
    (unsupported_line_mem_prelude hdr env lib mem _) (fun m hm => ?_) h
  refine Segment.andThen_lift _ _ (reached_append_right _) _ _
    (fun hr => by simpa using (unsupported_line_mem_read hdr env lib m _ hr).1)
    (fun m hm => ?_) hm
  exact Segment.andThen_continues _ _ (reached_append_right _) _ _
    (fun hr => (unsupported_line_mem_write hdr env lib m _ hr).2.2)
    (from_process_list_reached hdr env lib) hm

theorem main_continues_after_process_list (hdr : Header) (env : Env) (lib : Lib) (mem : Mem)
    (h : Feature.PROCESS_LIST.unsupported_line ∈ main_trace hdr env lib mem) :
    reached Feature.PROCESS_MODULES (main_trace hdr env lib mem) := by
  rw [main_trace_eq] at h ⊢
  refine Segment.andThen_lift _ _ (reached_append_right _) _ _
    (unsupported_line_mem_prelude hdr env lib mem _) (fun m hm => ?_) h
  refine Segment.andThen_lift _ _ (reached_append_right _) _ _
    (fun hr => by simpa using (unsupported_line_mem_read hdr env lib m _ hr).1)
    (fun m hm => ?_) hm
  refine Segment.andThen_lift _ _ (reached_append_right _) _ _
    (fun hr => by simpa using (unsupported_line_mem_write hdr env lib m _ hr).1)
    (fun m hm => ?_) hm
  exact Segment.andThen_continues _ _ (reached_append_right _) _ _
    (fun hr => (unsupported_line_mem_process_list hdr env lib m _ hr).2.2)
    (process_modules_segment_reached hdr env lib) hm

theorem main_returns_after_process_modules (hdr : Header) (env : Env) (lib : Lib) (mem : Mem)
    (h : Feature.PROCESS_MODULES.unsupported_line ∈ main_trace hdr env lib mem) :
    main_outcome hdr env lib mem = Outcome.returned 0 := by
  rw [main_trace_eq] at h
  rw [main_outcome_eq]
  have hs : (main_segment hdr env lib mem).stopped = false := by
    refine Segment.andThen_lift_stopped _ _ _
      (unsupported_line_mem_prelude hdr env lib mem _) (fun m hm => ?_) h
    refine Segment.andThen_lift_stopped _ _ _
      (fun hr => by simpa using (unsupported_line_mem_read hdr env lib m _ hr).1)
      (fun m hm => ?_) hm
    refine Segment.andThen_lift_stopped _ _ _
      (fun hr => by simpa using (unsupported_line_mem_write hdr env lib m _ hr).1)
      (fun m hm => ?_) hm
    refine Segment.andThen_lift_stopped _ _ _
      (fun hr => by simpa using (unsupported_line_mem_process_list hdr env lib m _ hr).1)
      (fun m hm => ?_) hm
    exact (unsupported_line_mem_process_modules hdr env lib m _ hm).2.2
  simp [hs]

theorem main_reaches_read (hdr : Header) (env : Env) (lib : Lib) (mem : Mem)
    (h0 : lib.library_initialize = hdr.VTUM_STATUS_SUCCESS)
    (h1 : lib.interface_create.1 = hdr.VTUM_STATUS_SUCCESS) :
    reached Feature.MEMORY_READ (main_trace hdr env lib mem) := by
  rw [main_trace_eq, main_segment, Segment.andThen_events]
  apply reached_append_right
  have : (prelude_segment hdr env lib mem).stopped = false := by
    simp [prelude_segment, h0, h1]
  simp only [this]
  exact from_read_reached hdr env lib _

theorem mem_functions_call (trace : List Event) (f : Feature) (h : f.operation ∈ functions trace) :
    ∃ c st, Event.call c st ∈ trace ∧ c.function = f.operation := by
  simp only [functions, List.mem_filterMap] at h
  obtain ⟨e, he, hf⟩ := h
  cases e with
  | call c st => exact ⟨c, st, he, by simpa [Event.function] using hf⟩
  | library_version => cases f <;> simp [Event.function, Feature.operation] at hf
  | printf l => simp [Event.function] at hf
  | visitor_printf l => simp [Event.function] at hf

theorem main_call_feature (hdr : Header) (env : Env) (lib : Lib) (c : Call) (f : Feature)
    (h : main_call hdr env lib c) (hf : c.function.required_feature = some f) :
    has_feature (main_features lib) (f.bits hdr) = true := by
  unfold main_call at h
  rcases h with h | h | h | h | ⟨hg, h⟩ | ⟨hg, h⟩ | ⟨hg, h⟩ | ⟨hg, h⟩ <;> subst h <;>
    simp [Call.function, LibFn.required_feature] at hf <;> subst hf <;> exact hg

/-! ## Memory -/

theorem load64_eq (m : Mem) (a : Nat) :
    load64 m a = m a % 256 + m (a + 1) % 256 * 256 + m (a + 2) % 256 * 256 ^ 2 +
      m (a + 3) % 256 * 256 ^ 3 + m (a + 4) % 256 * 256 ^ 4 + m (a + 5) % 256 * 256 ^ 5 +
      m (a + 6) % 256 * 256 ^ 6 + m (a + 7) % 256 * 256 ^ 7 := by
  simp [load64, sizeof_uint64_t, List.range_succ]
  ring

theorem load64_congr (m m' : Mem) (a a' : Nat)
    (h : ∀ i, i < 8 → m (a + i) = m' (a' + i)) : load64 m a = load64 m' a' := by
  rw [load64_eq, load64_eq]
  have h0 := h 0 (by omega)
  simp only [Nat.add_zero] at h0
  rw [h0, h 1 (by omega), h 2 (by omega), h 3 (by omega), h 4 (by omega), h 5 (by omega),
    h 6 (by omega), h 7 (by omega)]

theorem load64_copy_bytes (m : Mem) (dst src : Nat) :
    load64 (copy_bytes m dst src sizeof_uint64_t) dst = load64 m src := by
  apply load64_congr
  intro i hi
  simp [copy_bytes, sizeof_uint64_t, hi]

theorem load64_store64_of_disjoint (m : Mem) (a b v : Nat)
    (h : a + sizeof_uint64_t ≤ b ∨ b + sizeof_uint64_t ≤ a) :
    load64 (store64 m b v) a = load64 m a := by
  apply load64_congr
  intro i hi
  simp only [store64, sizeof_uint64_t] at h ⊢
  rw [if_neg]
  omega

theorem load64_store64 (m : Mem) (a v : Nat) : load64 (store64 m a v) a = v % 2 ^ 64 := by
  rw [load64_eq]
  simp [store64, sizeof_uint64_t]
  omega

/-! ## The order of the calls -/

theorem functions_append (a b : List Event) : functions (a ++ b) = functions a ++ functions b := by
  simp [functions]

theorem functions_map_visitor_printf (l : List Line) :
    functions (l.map Event.visitor_printf) = [] := by
  simp [functions, List.filterMap_map, List.filterMap_eq_nil_iff, Event.function]

theorem read_segment_functions (hdr : Header) (env : Env) (lib : Lib) (m : Mem) :
    (functions (read_segment hdr env lib m).events).Sublist
      [LibFn.vtum_interface_memory_read] := by
  simp only [read_segment]
  split_ifs <;> simp [functions, Event.function, Call.function, failure_line]

theorem write_segment_functions (hdr : Header) (env : Env) (lib : Lib) (m : Mem) :
    (functions (write_segment hdr env lib m).events).Sublist
      [LibFn.vtum_interface_memory_write] := by
  simp only [write_segment]
  split_ifs <;> simp [functions, Event.function, Call.function, failure_line]

theorem process_list_segment_functions (hdr : Header) (env : Env) (lib : Lib) (m : Mem) :
    (functions (process_list_segment hdr env lib m).events).Sublist
      [LibFn.vtum_interface_process_list] := by
  simp only [process_list_segment]
  split_ifs <;>
    simp [functions_append, functions_map_visitor_printf, functions, Event.function,
      Call.function, failure_line]

theorem process_modules_segment_functions (hdr : Header) (env : Env) (lib : Lib) (m : Mem) :
    (functions (process_modules_segment hdr env lib m).events).Sublist
      [LibFn.vtum_interface_process_module_list] := by
  simp only [process_modules_segment]
  split_ifs <;>
    simp [functions_append, functions_map_visitor_printf, functions, Event.function,
      Call.function, failure_line]

theorem prelude_segment_functions (hdr : Header) (env : Env) (lib : Lib) (m : Mem) :
    (functions (prelude_segment hdr env lib m).events).Sublist
      [LibFn.vtum_library_initialize, LibFn.vtum_library_version, LibFn.vtum_interface_create,
       LibFn.vtum_interface_driver_version, LibFn.vtum_interface_driver_features] := by
  simp only [prelude_segment]
  split_ifs <;> simp [functions, Event.function, Call.function, failure_line]

theorem Segment.andThen_functions (a : Segment) (b : Mem → Segment) (la lb : List LibFn)
    (ha : (functions a.events).Sublist la) (hb : ∀ m, (functions (b m).events).Sublist lb) :
    (functions (a.andThen b).events).Sublist (la ++ lb) := by
  rw [Segment.andThen_events, functions_append]
  refine List.Sublist.append ha ?_
  split_ifs
  · exact List.nil_sublist _
  · exact hb _

theorem from_process_list_functions (hdr : Header) (env : Env) (lib : Lib) (m : Mem) :
    (functions (from_process_list hdr env lib m).events).Sublist
      [LibFn.vtum_interface_process_list, LibFn.vtum_interface_process_module_list] :=
  Segment.andThen_functions _ _ [_] [_] (process_list_segment_functions hdr env lib m)
    (process_modules_segment_functions hdr env lib)

theorem from_write_functions (hdr : Header) (env : Env) (lib : Lib) (m : Mem) :
    (functions (from_write hdr env lib m).events).Sublist
      [LibFn.vtum_interface_memory_write, LibFn.vtum_interface_process_list,
       LibFn.vtum_interface_process_module_list] :=
  Segment.andThen_functions _ _ [_] _ (write_segment_functions hdr env lib m)
    (from_process_list_functions hdr env lib)

theorem from_read_functions (hdr : Header) (env : Env) (lib : Lib) (m : Mem) :
    (functions (from_read hdr env lib m).events).Sublist
      [LibFn.vtum_interface_memory_read, LibFn.vtum_interface_memory_write,
       LibFn.vtum_interface_process_list, LibFn.vtum_interface_process_module_list] :=
  Segment.andThen_functions _ _ [_] _ (read_segment_functions hdr env lib m)
    (from_write_functions hdr env lib)

theorem call_function_mem (trace : List Event) (c : Call) (st : Nat)
    (h : Event.call c st ∈ trace) : c.function ∈ functions trace := by
  simp only [functions, List.mem_filterMap]
  exact ⟨_, h, rfl⟩

/-- The library functions a run of `main` calls are, in order, some of the nine calls of its
text. -/
theorem main_functions_sublist (hdr : Header) (env : Env) (lib : Lib) (mem : Mem) :
    (functions (main_trace hdr env lib mem)).Sublist
      [LibFn.vtum_library_initialize, LibFn.vtum_library_version, LibFn.vtum_interface_create,
       LibFn.vtum_interface_driver_version, LibFn.vtum_interface_driver_features,
       LibFn.vtum_interface_memory_read, LibFn.vtum_interface_memory_write,
       LibFn.vtum_interface_process_list, LibFn.vtum_interface_process_module_list] := by
  rw [main_trace_eq]
  exact Segment.andThen_functions _ _ _ _ (prelude_segment_functions hdr env lib mem)
    (from_read_functions hdr env lib)

theorem main_functions_sorted (hdr : Header) (env : Env) (lib : Lib) (mem : Mem) :
    (functions (main_trace hdr env lib mem)).Pairwise (fun f g => f.rank < g.rank) :=
  List.Pairwise.sublist (main_functions_sublist hdr env lib mem) (by decide)

theorem main_functions_nodup (hdr : Header) (env : Env) (lib : Lib) (mem : Mem) :
    (functions (main_trace hdr env lib mem)).Nodup :=
  List.Nodup.sublist (main_functions_sublist hdr env lib mem) (by decide)

theorem main_functions_order (hdr : Header) (env : Env) (lib : Lib) (mem : Mem)
    (pre post : List LibFn) (f g : LibFn)
    (h : functions (main_trace hdr env lib mem) = pre ++ f :: post) (hg : g ∈ post) :
    f.rank < g.rank := by
  have := main_functions_sorted hdr env lib mem
  rw [h, List.pairwise_append] at this
  exact (List.pairwise_cons.1 this.2.1).1 g hg

/-! ## The selector and the memory calls -/

theorem main_call_translation_context (hdr : Header) (env : Env) (lib : Lib) (c : Call)
    (pid : Nat) (dt : DirectoryTableType) (h : main_call hdr env lib c)
    (hc : c.translation_context = some (pid, dt)) :
    pid = env.current_process_id ∧ dt = main_directory_table hdr env := by
  unfold main_call at h
  rcases h with h | h | h | h | ⟨_, h⟩ | ⟨_, h⟩ | ⟨_, h⟩ | ⟨_, h⟩ <;> subst h <;>
    simp only [Call.translation_context, Option.some.injEq, Prod.mk.injEq, reduceCtorEq] at hc <;>
    exact ⟨hc.1.symm, hc.2.symm⟩

/-- C6: every translation-dependent call of a run of `main`
(`vtum_interface_memory_read`, `vtum_interface_memory_write`,
`vtum_interface_process_module_list`) receives a selector whose tag is
`DIRECTORY_TABLE_TYPE_DEFAULT`; the selector is the same for all of them (the
local of `main` with the tag set), and the process id is the current process
id. -/
theorem translation_calls_receive_default_selector (hdr : Header) (env : Env) (lib : Lib)
    (mem : Mem) (c : Call) (st pid : Nat) (dt : DirectoryTableType)
    (h : Event.call c st ∈ main_trace hdr env lib mem)
    (hc : c.translation_context = some (pid, dt)) :
    dt.tag = hdr.DIRECTORY_TABLE_TYPE_DEFAULT ∧
    dt = { env.uninit_directory_table with tag := hdr.DIRECTORY_TABLE_TYPE_DEFAULT } ∧
    pid = env.current_process_id := by
  obtain ⟨hp, hd⟩ := main_call_translation_context hdr env lib c pid dt
    (call_mem_main_trace hdr env lib mem c st h) hc
  subst hp hd
  exact ⟨rfl, rfl, rfl⟩

theorem translation_calls_receive_default_selector_witness :
    (⟨0, 9⟩ : DirectoryTableType).tag = example_header.DIRECTORY_TABLE_TYPE_DEFAULT ∧
    (⟨0, 9⟩ : DirectoryTableType) =
      { example_env.uninit_directory_table with
        tag := example_header.DIRECTORY_TABLE_TYPE_DEFAULT } ∧
    4242 = example_env.current_process_id :=
  translation_calls_receive_default_selector example_header example_env
    (example_lib 0x303 0 0 0 0 0 0 0 0) zero_memory
    (Call.vtum_interface_memory_read 77 4242 ⟨0, 9⟩ 1000 1008 8) 0 4242 ⟨0, 9⟩
    (by decide) rfl

theorem prelude_segment_memory (hdr : Header) (env : Env) (lib : Lib) (m : Mem)
    (h : (prelude_segment hdr env lib m).stopped = false) :
    (prelude_segment hdr env lib m).memory = store64 m env.addr_target_value 0xDEADBEEF := by
  simp only [prelude_segment] at h ⊢
  split_ifs at h ⊢
  all_goals simp_all

theorem read_segment_copies (hdr : Header) (env : Env) (lib : Lib) (m : Mem) (c : Call)
    (hc : lib.copies_as_specified hdr)
    (hd : env.addr_target_value + sizeof_uint64_t ≤ env.addr_read_buffer ∨
      env.addr_read_buffer + sizeof_uint64_t ≤ env.addr_target_value)
    (h : Event.call c hdr.VTUM_STATUS_SUCCESS ∈
      (read_segment hdr env lib (store64 m env.addr_target_value 0xDEADBEEF)).events) :
    Event.printf ⟨"Read variable value: %llx\n", [Arg.num 0xDEADBEEF]⟩ ∈
      (read_segment hdr env lib (store64 m env.addr_target_value 0xDEADBEEF)).events := by
  simp only [read_segment] at h ⊢
  split_ifs at h ⊢ with hg hs
  · rw [hc.1 _ _ _ _ _ _ _ hs, load64_copy_bytes, load64_store64_of_disjoint _ _ _ _ hd,
      load64_store64]
    simp
  · simp [failure_line] at h
    exact absurd h.2.symm hs
  · simp at h

theorem write_segment_copies (hdr : Header) (env : Env) (lib : Lib) (m : Mem) (c : Call)
    (hc : lib.copies_as_specified hdr)
    (h : Event.call c hdr.VTUM_STATUS_SUCCESS ∈ (write_segment hdr env lib m).events) :
    Event.printf ⟨"Write variable value: %llx\n", [Arg.num 0xB00BB00B]⟩ ∈
      (write_segment hdr env lib m).events := by
  simp only [write_segment] at h ⊢
  split_ifs at h ⊢ with hg hs
  · rw [hc.2 _ _ _ _ _ _ _ hs, load64_copy_bytes, load64_store64]
    simp
  · simp [failure_line] at h
    exact absurd h.2.symm hs
  · simp at h

theorem main_read_copies (hdr : Header) (env : Env) (lib : Lib) (mem : Mem) (c : Call)
    (hc : lib.copies_as_specified hdr)
    (hd : env.addr_target_value + sizeof_uint64_t ≤ env.addr_read_buffer ∨
      env.addr_read_buffer + sizeof_uint64_t ≤ env.addr_target_value)
    (hf : c.function = LibFn.vtum_interface_memory_read)
    (h : Event.call c hdr.VTUM_STATUS_SUCCESS ∈ main_trace hdr env lib mem) :
    Event.printf ⟨"Read variable value: %llx\n", [Arg.num 0xDEADBEEF]⟩ ∈
      main_trace hdr env lib mem := by
  rw [main_trace_eq, main_segment, Segment.andThen_events, List.mem_append] at h ⊢
  rcases h with h | h
  · have := (prelude_segment_functions hdr env lib mem).subset (call_function_mem _ _ _ h)
    rw [hf] at this
    simp at this
  · right
    split_ifs at h ⊢ with hs
    · simp at h
    · rw [prelude_segment_memory hdr env lib mem (by simpa using hs)] at h ⊢
      rw [from_read, Segment.andThen_events, List.mem_append] at h ⊢
      rcases h with h | h
      · exact Or.inl (read_segment_copies hdr env lib mem c hc hd h)
      · split_ifs at h
        · simp at h
        · have := (from_write_functions hdr env lib _).subset (call_function_mem _ _ _ h)
          rw [hf] at this
          simp at this

theorem main_write_copies (hdr : Header) (env : Env) (lib : Lib) (mem : Mem) (c : Call)
    (hc : lib.copies_as_specified hdr)
    (hf : c.function = LibFn.vtum_interface_memory_write)
    (h : Event.call c hdr.VTUM_STATUS_SUCCESS ∈ main_trace hdr env lib mem) :
    Event.printf ⟨"Write variable value: %llx\n", [Arg.num 0xB00BB00B]⟩ ∈
      main_trace hdr env lib mem := by
  rw [main_trace_eq, main_segment, Segment.andThen_events, List.mem_append] at h ⊢
  rcases h with h | h
  · have := (prelude_segment_functions hdr env lib mem).subset (call_function_mem _ _ _ h)
    rw [hf] at this
    simp at this
  · right
    split_ifs at h ⊢ with hs
    · simp at h
    · rw [from_read, Segment.andThen_events, List.mem_append] at h ⊢
      rcases h with h | h
      · have := (read_segment_functions hdr env lib _).subset (call_function_mem _ _ _ h)
        rw [hf] at this
        simp at this
      · right
        split_ifs at h ⊢ with hs2
        · simp at h
        · rw [from_write, Segment.andThen_events, List.mem_append] at h ⊢
          rcases h with h | h
          · exact Or.inl (write_segment_copies hdr env lib _ c hc h)
          · split_ifs at h
            · simp at h
            · have := (from_process_list_functions hdr env lib _).subset
                (call_function_mem _ _ _ h)
              rw [hf] at this
              simp at this

/-- C9: the memory calls of `main` are in bounds and aimed at the same range.
Every `vtum_interface_memory_read` of a run has `virtual_address = &target_value`,
`buffer = &read_buffer` and `length = sizeof(uint64_t)`, every
`vtum_interface_memory_write` has `virtual_address = &target_value`,
`buffer = &new_value` and `length = sizeof(uint64_t)`, which is 8; no read
follows the write; and with a library that copies `length` bytes as
specified, a read that succeeds is followed by the line that prints
`read_buffer` as 0xDEADBEEF (for `target_value` and `read_buffer` that do not
overlap), and a write that succeeds by the line that prints `target_value` as
0xB00BB00B. -/
theorem memory_calls_aim_at_target_value (hdr : Header) (env : Env) (lib : Lib) (mem : Mem) :
    (∀ st handle pid dt va buf len,
      Event.call (Call.vtum_interface_memory_read handle pid dt va buf len) st ∈
        main_trace hdr env lib mem →
      va = env.addr_target_value ∧ buf = env.addr_read_buffer ∧ len = sizeof_uint64_t) ∧
    (∀ st handle pid dt va buf len,
      Event.call (Call.vtum_interface_memory_write handle pid dt va buf len) st ∈
        main_trace hdr env lib mem →
      va = env.addr_target_value ∧ buf = env.addr_new_value ∧ len = sizeof_uint64_t) ∧
    sizeof_uint64_t = 8 ∧
    (∀ pre post, functions (main_trace hdr env lib mem) =
        pre ++ LibFn.vtum_interface_memory_write :: post →
      LibFn.vtum_interface_memory_read ∉ post) ∧
    (lib.copies_as_specified hdr →
      (env.addr_target_value + sizeof_uint64_t ≤ env.addr_read_buffer ∨
        env.addr_read_buffer + sizeof_uint64_t ≤ env.addr_target_value) →
      ∀ handle pid dt va buf len,
        Event.call (Call.vtum_interface_memory_read handle pid dt va buf len)
          hdr.VTUM_STATUS_SUCCESS ∈ main_trace hdr env lib mem →
        Event.printf ⟨"Read variable value: %llx\n", [Arg.num 0xDEADBEEF]⟩ ∈
          main_trace hdr env lib mem) ∧
    (lib.copies_as_specified hdr →
      ∀ handle pid dt va buf len,
        Event.call (Call.vtum_interface_memory_write handle pid dt va buf len)
          hdr.VTUM_STATUS_SUCCESS ∈ main_trace hdr env lib mem →
        Event.printf ⟨"Write variable value: %llx\n", [Arg.num 0xB00BB00B]⟩ ∈
          main_trace hdr env lib mem) := by
  refine ⟨?_, ?_, rfl, ?_, ?_, ?_⟩
  · intro st handle pid dt va buf len h
    have := call_mem_main_trace hdr env lib mem _ st h
    unfold main_call at this
    simp at this
    exact ⟨this.2.2.2.2.1, this.2.2.2.2.2.1, this.2.2.2.2.2.2⟩
  · intro st handle pid dt va buf len h
    have := call_mem_main_trace hdr env lib mem _ st h
    unfold main_call at this
    simp at this
    exact ⟨this.2.2.2.2.1, this.2.2.2.2.2.1, this.2.2.2.2.2.2⟩
  · intro pre post h hr
    have := main_functions_order hdr env lib mem pre post _ _ h hr
    simp [LibFn.rank] at this
  · intro hc hd handle pid dt va buf len h
    exact main_read_copies hdr env lib mem
      (Call.vtum_interface_memory_read handle pid dt va buf len) hc hd rfl h
  · intro hc handle pid dt va buf len h
    exact main_write_copies hdr env lib mem
      (Call.vtum_interface_memory_write handle pid dt va buf len) hc rfl h

theorem example_lib_copies_as_specified (features a b c d e f g h : Nat) :
    (example_lib features a b c d e f g h).copies_as_specified example_header :=
  ⟨fun _ _ _ _ _ _ _ _ => rfl, fun _ _ _ _ _ _ _ _ => rfl⟩

theorem memory_calls_aim_at_target_value_witness :
    Event.printf ⟨"Read variable value: %llx\n", [Arg.num 0xDEADBEEF]⟩ ∈
        main_trace example_header example_env (example_lib 0x303 0 0 0 0 0 0 0 0) zero_memory ∧
    Event.printf ⟨"Write variable value: %llx\n", [Arg.num 0xB00BB00B]⟩ ∈
        main_trace example_header example_env (example_lib 0x303 0 0 0 0 0 0 0 0) zero_memory :=
  ⟨(memory_calls_aim_at_target_value example_header example_env
      (example_lib 0x303 0 0 0 0 0 0 0 0) zero_memory).2.2.2.2.1
      (example_lib_copies_as_specified _ _ _ _ _ _ _ _ _) (by decide)
      77 4242 ⟨0, 9⟩ 1000 1008 8 (by decide),
   (memory_calls_aim_at_target_value example_header example_env
      (example_lib 0x303 0 0 0 0 0 0 0 0) zero_memory).2.2.2.2.2
      (example_lib_copies_as_specified _ _ _ _ _ _ _ _ _)
      77 4242 ⟨0, 9⟩ 1000 1016 8 (by decide)⟩

/-! ## The handle state machine -/

theorem calls_append (a b : List Event) : calls (a ++ b) = calls a ++ calls b := by
  simp [calls]

theorem mem_calls (trace : List Event) (c : Call) (st : Nat) :
    (c, st) ∈ calls trace ↔ Event.call c st ∈ trace := by
  simp only [calls, List.mem_filterMap]
  constructor
  · rintro ⟨e, he, hx⟩
    cases e <;> simp at hx
    obtain ⟨rfl, rfl⟩ := hx
    exact he
  · intro h
    exact ⟨_, h, rfl⟩

theorem ordered_sound (success : Nat) (l : List (Call × Nat)) :
    ∀ (i k : Bool), ordered success l i k = true →
    ∀ (pre : List (Call × Nat)) (x : Call × Nat) (post : List (Call × Nat)),
      l = pre ++ x :: post →
      (x.1 = Call.vtum_interface_create →
        i = true ∨ (Call.vtum_library_initialize, success) ∈ pre) ∧
      (x.1.is_handle_op = true → k = true ∨ (Call.vtum_interface_create, success) ∈ pre) := by
  induction l with
  | nil => intro i k _ pre x post hl; simp at hl
  | cons y l ih =>
    intro i k h pre x post hl
    obtain ⟨c, st⟩ := y
    simp only [ordered, Bool.and_eq_true] at h
    cases pre with
    | nil =>
      simp only [List.nil_append, List.cons.injEq] at hl
      obtain ⟨rfl, rfl⟩ := hl
      constructor
      · intro hc
        simp only at hc
        left
        simpa [hc] using h.1
      · intro hc
        simp only at hc
        have hne : c ≠ Call.vtum_interface_create := by
          intro h0; rw [h0] at hc; simp [Call.is_handle_op] at hc
        left
        simpa [hne, hc] using h.1
    | cons p pre =>
      simp only [List.cons_append, List.cons.injEq] at hl
      obtain ⟨rfl, rfl⟩ := hl
      have := ih _ _ h.2 pre x post rfl
      constructor
      · intro hc
        rcases this.1 hc with h1 | h1
        · simp only [Bool.or_eq_true, Bool.and_eq_true, decide_eq_true_eq] at h1
          rcases h1 with h1 | ⟨h1, h2⟩
          · exact Or.inl h1
          · right; simp [h1, h2]
        · exact Or.inr (List.mem_cons_of_mem _ h1)
      · intro hc
        rcases this.2 hc with h1 | h1
        · simp only [Bool.or_eq_true, Bool.and_eq_true, decide_eq_true_eq] at h1
          rcases h1 with h1 | ⟨h1, h2⟩
          · exact Or.inl h1
          · right; simp [h1, h2]
        · exact Or.inr (List.mem_cons_of_mem _ h1)

theorem ordered_of_handle_ops (success : Nat) (l : List (Call × Nat)) (i : Bool)
    (h : ∀ x ∈ l, x.1.is_handle_op = true) : ordered success l i true = true := by
  induction l generalizing i with
  | nil => rfl
  | cons y l ih =>
    obtain ⟨c, st⟩ := y
    have hc : c.is_handle_op = true := h (c, st) (List.mem_cons_self _ _)
    have hne : c ≠ Call.vtum_interface_create := by
      intro h0; rw [h0] at hc; simp [Call.is_handle_op] at hc
    simp only [ordered, hne, hc, if_true, if_false, Bool.true_or, Bool.true_and]
    exact ih _ fun x hx => h x (List.mem_cons_of_mem _ hx)

theorem from_read_handle_ops (hdr : Header) (env : Env) (lib : Lib) (m : Mem) :
    ∀ x ∈ calls (from_read hdr env lib m).events, x.1.is_handle_op = true := by
  rintro ⟨c, st⟩ hx
  rw [mem_calls] at hx
  refine from_read_all hdr env lib (fun e => ∀ c st, e = Event.call c st → c.is_handle_op = true)
    ?_ ?_ ?_ ?_ m _ hx c st rfl
  · intro m e he c st hc; subst hc
    rw [(call_mem_read hdr env lib m c st he).2]; rfl
  · intro m e he c st hc; subst hc
    rw [(call_mem_write hdr env lib m c st he).2]; rfl
  · intro m e he c st hc; subst hc
    rw [(call_mem_process_list hdr env lib m c st he).2]; rfl
  · intro m e he c st hc; subst hc
    rw [(call_mem_process_modules hdr env lib m c st he).2]; rfl

theorem main_trace_of_initialize_failed (hdr : Header) (env : Env) (lib : Lib) (mem : Mem)
    (h : lib.library_initialize ≠ hdr.VTUM_STATUS_SUCCESS) :
    main_trace hdr env lib mem =
      [Event.call Call.vtum_library_initialize lib.library_initialize,
       failure_line "failed to initialize lib" lib.library_initialize] := by
  rw [main_trace_eq, main_segment, Segment.andThen_events]
  simp [prelude_segment, h]

theorem main_trace_of_create_failed (hdr : Header) (env : Env) (lib : Lib) (mem : Mem)
    (h0 : lib.library_initialize = hdr.VTUM_STATUS_SUCCESS)
    (h : lib.interface_create.1 ≠ hdr.VTUM_STATUS_SUCCESS) :
    main_trace hdr env lib mem =
      [Event.call Call.vtum_library_initialize lib.library_initialize,
       Event.library_version,
       Event.printf ⟨"VT library version: %s\n", [Arg.buf lib.library_version]⟩,
       Event.call Call.vtum_interface_create lib.interface_create.1,
       failure_line "failed to create a new interface" lib.interface_create.1] := by
  rw [main_trace_eq, main_segment, Segment.andThen_events]
  simp [prelude_segment, h0, h]

theorem main_trace_of_prelude_succeeded (hdr : Header) (env : Env) (lib : Lib) (mem : Mem)
    (h0 : lib.library_initialize = hdr.VTUM_STATUS_SUCCESS)
    (h1 : lib.interface_create.1 = hdr.VTUM_STATUS_SUCCESS) :
    main_trace hdr env lib mem =
      [Event.call Call.vtum_library_initialize lib.library_initialize,
       Event.library_version,
       Event.printf ⟨"VT library version: %s\n", [Arg.buf lib.library_version]⟩,
       Event.call Call.vtum_interface_create lib.interface_create.1,
       Event.call (Call.vtum_interface_driver_version (main_handle lib))
         (lib.driver_version (main_handle lib)).1,
       Event.call (Call.vtum_interface_driver_features (main_handle lib))
         (lib.driver_features (main_handle lib)).1,
       Event.printf ⟨"Using driver %s version %d.%d.%d.\n",
         [Arg.buf (lib.driver_version (main_handle lib)).2.application_name,
          Arg.num (lib.driver_version (main_handle lib)).2.version_major,
          Arg.num (lib.driver_version (main_handle lib)).2.version_minor,
          Arg.num (lib.driver_version (main_handle lib)).2.version_patch]⟩] ++
      (from_read hdr env lib (store64 mem env.addr_target_value 0xDEADBEEF)).events := by
  rw [main_trace_eq, main_segment, Segment.andThen_events]
  simp [prelude_segment, h0, h1]

theorem main_calls_ordered (hdr : Header) (env : Env) (lib : Lib) (mem : Mem) :
    ordered hdr.VTUM_STATUS_SUCCESS (calls (main_trace hdr env lib mem)) false false = true := by
  by_cases h0 : lib.library_initialize = hdr.VTUM_STATUS_SUCCESS
  · by_cases h1 : lib.interface_create.1 = hdr.VTUM_STATUS_SUCCESS
    · rw [main_trace_of_prelude_succeeded hdr env lib mem h0 h1, calls_append]
      have hr := ordered_of_handle_ops hdr.VTUM_STATUS_SUCCESS _ true
        (from_read_handle_ops hdr env lib (store64 mem env.addr_target_value 0xDEADBEEF))
      simp [calls, ordered, Call.is_handle_op, h0, h1] at hr ⊢
      exact hr
    · rw [main_trace_of_create_failed hdr env lib mem h0 h1]
      simp [calls, ordered, Call.is_handle_op, h0, h1, failure_line]
  · rw [main_trace_of_initialize_failed hdr env lib mem h0]
    simp [calls, ordered, Call.is_handle_op, h0, failure_line]

theorem main_call_handle (hdr : Header) (env : Env) (lib : Lib) (c : Call)
    (h : main_call hdr env lib c) (hc : c.is_handle_op = true) :
    c.handle = some lib.interface_create.2 := by
  unfold main_call at h
  rcases h with h | h | h | h | ⟨_, h⟩ | ⟨_, h⟩ | ⟨_, h⟩ | ⟨_, h⟩ <;> subst h <;>
    first
      | rfl
      | (simp [Call.is_handle_op] at hc)

/-- C4: `main` respects the order of the handle state machine.  For every call
`c` of a run, with `pre` the calls made before it together with the status
each returned: if `c` is `vtum_interface_create` then `vtum_library_initialize`
has returned `VTUM_STATUS_SUCCESS` before; if `c` is a handle operation then
`vtum_interface_create` has returned `VTUM_STATUS_SUCCESS` before, and `c`
receives the handle it produced; if `vtum_library_initialize` fails then `c` is
neither `vtum_interface_create` nor a handle operation; if
`vtum_interface_create` fails then `c` is not a handle operation. -/
theorem main_respects_handle_state_machine (hdr : Header) (env : Env) (lib : Lib) (mem : Mem)
    (pre post : List (Call × Nat)) (c : Call) (st : Nat)
    (h : calls (main_trace hdr env lib mem) = pre ++ (c, st) :: post) :
    (c = Call.vtum_interface_create →
      (Call.vtum_library_initialize, hdr.VTUM_STATUS_SUCCESS) ∈ pre) ∧
    (c.is_handle_op = true →
      (Call.vtum_interface_create, hdr.VTUM_STATUS_SUCCESS) ∈ pre ∧
      c.handle = some lib.interface_create.2) ∧
    (lib.library_initialize ≠ hdr.VTUM_STATUS_SUCCESS →
      c ≠ Call.vtum_interface_create ∧ c.is_handle_op = false) ∧
    (lib.interface_create.1 ≠ hdr.VTUM_STATUS_SUCCESS → c.is_handle_op = false) := by
  have hmem : Event.call c st ∈ main_trace hdr env lib mem := by
    rw [← mem_calls, h]; simp
  have hs := ordered_sound _ _ _ _ (main_calls_ordered hdr env lib mem) pre (c, st) post h
  have hinit : lib.library_initialize ≠ hdr.VTUM_STATUS_SUCCESS →
      c = Call.vtum_library_initialize := by
    intro h0
    rw [main_trace_of_initialize_failed hdr env lib mem h0] at hmem
    simp [failure_line] at hmem
    exact hmem.1
  refine ⟨fun hc => ?_, fun hc => ⟨?_, ?_⟩, fun h0 => ?_, fun h1 => ?_⟩
  · simpa using hs.1 hc
  · simpa using hs.2 hc
  · exact main_call_handle hdr env lib c (call_mem_main_trace hdr env lib mem c st hmem) hc
  · rw [hinit h0]; simp [Call.is_handle_op]
  · by_cases h0 : lib.library_initialize = hdr.VTUM_STATUS_SUCCESS
    · rw [main_trace_of_create_failed hdr env lib mem h0 h1] at hmem
      simp [failure_line] at hmem
      rcases hmem with hm | hm <;> rw [hm.1] <;> rfl
    · rw [hinit h0]; rfl

theorem main_respects_handle_state_machine_witness :
    (Call.vtum_interface_memory_read 77 4242 ⟨0, 9⟩ 1000 1008 8 = Call.vtum_interface_create →
      (Call.vtum_library_initialize, example_header.VTUM_STATUS_SUCCESS) ∈
        [(Call.vtum_library_initialize, 0), (Call.vtum_interface_create, 0),
         (Call.vtum_interface_driver_version 77, 0),
         (Call.vtum_interface_driver_features 77, 0)]) ∧
    ((Call.vtum_interface_memory_read 77 4242 ⟨0, 9⟩ 1000 1008 8).is_handle_op = true →
      (Call.vtum_interface_create, example_header.VTUM_STATUS_SUCCESS) ∈
        [(Call.vtum_library_initialize, 0), (Call.vtum_interface_create, 0),
         (Call.vtum_interface_driver_version 77, 0),
         (Call.vtum_interface_driver_features 77, 0)] ∧
      (Call.vtum_interface_memory_read 77 4242 ⟨0, 9⟩ 1000 1008 8).handle =
        some (example_lib 0x303 0 0 0 0 0 0 0 0).interface_create.2) ∧
    (Lib.library_initialize (example_lib 0x303 0 0 0 0 0 0 0 0) ≠
        example_header.VTUM_STATUS_SUCCESS →
      Call.vtum_interface_memory_read 77 4242 ⟨0, 9⟩ 1000 1008 8 ≠ Call.vtum_interface_create ∧
      (Call.vtum_interface_memory_read 77 4242 ⟨0, 9⟩ 1000 1008 8).is_handle_op = false) ∧
    ((example_lib 0x303 0 0 0 0 0 0 0 0).interface_create.1 ≠
        example_header.VTUM_STATUS_SUCCESS →
      (Call.vtum_interface_memory_read 77 4242 ⟨0, 9⟩ 1000 1008 8).is_handle_op = false) :=
  main_respects_handle_state_machine example_header example_env
    (example_lib 0x303 0 0 0 0 0 0 0 0) zero_memory
    [(Call.vtum_library_initialize, 0), (Call.vtum_interface_create, 0),
     (Call.vtum_interface_driver_version 77, 0), (Call.vtum_interface_driver_features 77, 0)]
    [(Call.vtum_interface_memory_write 77 4242 ⟨0, 9⟩ 1000 1016 8, 0),
     (Call.vtum_interface_process_list 77, 0),
     (Call.vtum_interface_process_module_list 77 4242 ⟨0, 9⟩, 0)]
    (Call.vtum_interface_memory_read 77 4242 ⟨0, 9⟩ 1000 1008 8) 0 (by decide)

/-! ## Stopping at the first failure -/

theorem quiet_after_failure_sound (success : Nat) (l : List Event) :
    quiet_after_failure success l = true →
    ∀ (pre : List Event) (e : Event) (post : List Event), l = pre ++ e :: post →
      failed_call success e = true → ∀ x ∈ post, x.function = none := by
  induction l with
  | nil => intro _ pre e post hl; simp at hl
  | cons y l ih =>
    intro h pre e post hl he x hx
    simp only [quiet_after_failure] at h
    cases pre with
    | nil =>
      simp only [List.nil_append, List.cons.injEq] at hl
      obtain ⟨rfl, rfl⟩ := hl
      simp only [he, if_true, List.all_eq_true] at h
      simpa using h x hx
    | cons p pre =>
      simp only [List.cons_append, List.cons.injEq] at hl
      obtain ⟨rfl, rfl⟩ := hl
      split_ifs at h with hy
      · simp only [List.all_eq_true] at h
        simpa using h x (by simp [hx])
      · exact ih h pre e post rfl he x hx

theorem quiet_after_failure_append (success : Nat) (a b : List Event)
    (ha : ∀ e ∈ a, failed_call success e = false) :
    quiet_after_failure success (a ++ b) = quiet_after_failure success b := by
  induction a with
  | nil => rfl
  | cons y a ih =>
    have hy := ha y (List.mem_cons_self _ _)
    simp only [List.cons_append, quiet_after_failure, hy]
    exact ih fun e he => ha e (List.mem_cons_of_mem _ he)

theorem quiet_after_failure_map_visitor_printf (success : Nat) (l : List Line)
    (rest : List Event) :
    quiet_after_failure success (l.map Event.visitor_printf ++ rest) =
      quiet_after_failure success rest := by
  apply quiet_after_failure_append
  intro e he
  simp only [List.mem_map] at he
  obtain ⟨x, _, rfl⟩ := he
  rfl

theorem quiet_after_failure_map (success : Nat) (l : List Line) :
    quiet_after_failure success (l.map Event.visitor_printf) = true := by
  have := quiet_after_failure_map_visitor_printf success l []
  simpa [quiet_after_failure] using this

theorem Segment.andThen_stops_at_failure (success : Nat) (a : Segment) (b : Mem → Segment)
    (ha : a.stops_at_failure success) (hb : ∀ m, (b m).stops_at_failure success) :
    (a.andThen b).stops_at_failure success := by
  unfold Segment.stops_at_failure at *
  rw [Segment.andThen_events, Segment.andThen_stopped]
  by_cases hs : a.stopped = true
  · simp only [hs, if_true, List.append_nil, Bool.true_or, true_iff]
    exact ⟨ha.1.1 hs, ha.2⟩
  · have hno : ∀ e ∈ a.events, failed_call success e = false := by
      intro e he
      by_contra hf
      exact hs (ha.1.2 ⟨e, he, by simpa using hf⟩)
    simp only [hs, if_false]
    constructor
    · constructor
      · intro h
        have h' : (b a.memory).stopped = true := by simpa [hs] using h
        obtain ⟨e, he, hf⟩ := (hb a.memory).1.1 h'
        exact ⟨e, List.mem_append_right _ he, hf⟩
      · rintro ⟨e, he, hf⟩
        rw [List.mem_append] at he
        rcases he with he | he
        · rw [hno e he] at hf; cases hf
        · simp [(hb a.memory).1.2 ⟨e, he, hf⟩]
    · rw [quiet_after_failure_append success _ _ hno]
      exact (hb a.memory).2

theorem prelude_stops_at_failure (hdr : Header) (env : Env) (lib : Lib) (m : Mem) :
    (prelude_segment hdr env lib m).stops_at_failure hdr.VTUM_STATUS_SUCCESS := by
  simp only [prelude_segment, Segment.stops_at_failure]
  split_ifs with h0 h1 <;>
    simp [failed_call, quiet_after_failure, Call.is_setup_or_feature_op, Call.is_feature_op,
      failure_line, Event.function, *]

theorem read_stops_at_failure (hdr : Header) (env : Env) (lib : Lib) (m : Mem) :
    (read_segment hdr env lib m).stops_at_failure hdr.VTUM_STATUS_SUCCESS := by
  simp only [read_segment, Segment.stops_at_failure]
  split_ifs with h0 h1 <;>
    simp [failed_call, quiet_after_failure, Call.is_setup_or_feature_op, Call.is_feature_op,
      failure_line, Event.function, quiet_after_failure_map_visitor_printf,
      quiet_after_failure_map, *]

theorem write_stops_at_failure (hdr : Header) (env : Env) (lib : Lib) (m : Mem) :
    (write_segment hdr env lib m).stops_at_failure hdr.VTUM_STATUS_SUCCESS := by
  simp only [write_segment, Segment.stops_at_failure]
  split_ifs with h0 h1 <;>
    simp [failed_call, quiet_after_failure, Call.is_setup_or_feature_op, Call.is_feature_op,
      failure_line, Event.function, quiet_after_failure_map_visitor_printf,
      quiet_after_failure_map, *]

theorem process_list_stops_at_failure (hdr : Header) (env : Env) (lib : Lib) (m : Mem) :
    (process_list_segment hdr env lib m).stops_at_failure hdr.VTUM_STATUS_SUCCESS := by
  simp only [process_list_segment, Segment.stops_at_failure]
  split_ifs with h0 h1 <;>
    simp [failed_call, quiet_after_failure, Call.is_setup_or_feature_op, Call.is_feature_op,
      failure_line, Event.function, quiet_after_failure_map_visitor_printf,
      quiet_after_failure_map, *]

theorem process_modules_stops_at_failure (hdr : Header) (env : Env) (lib : Lib) (m : Mem) :
    (process_modules_segment hdr env lib m).stops_at_failure hdr.VTUM_STATUS_SUCCESS := by
  simp only [process_modules_segment, Segment.stops_at_failure]
  split_ifs with h0 h1 <;>
    simp [failed_call, quiet_after_failure, Call.is_setup_or_feature_op, Call.is_feature_op,
      failure_line, Event.function, quiet_after_failure_map_visitor_printf,
      quiet_after_failure_map, *]

theorem main_stops_at_failure (hdr : Header) (env : Env) (lib : Lib) (mem : Mem) :
    (main_segment hdr env lib mem).stops_at_failure hdr.VTUM_STATUS_SUCCESS := by
  refine Segment.andThen_stops_at_failure _ _ _ (prelude_stops_at_failure hdr env lib mem)
    fun m => ?_
  refine Segment.andThen_stops_at_failure _ _ _ (read_stops_at_failure hdr env lib m)
    fun m => ?_
  refine Segment.andThen_stops_at_failure _ _ _ (write_stops_at_failure hdr env lib m)
    fun m => ?_
  exact Segment.andThen_stops_at_failure _ _ _ (process_list_stops_at_failure hdr env lib m)
    (process_modules_stops_at_failure hdr env lib)

/-! ## The calls that are always made -/

theorem call_mem_from_read (hdr : Header) (env : Env) (lib : Lib) (m : Mem) (c : Call)
    (st : Nat) (h : Event.call c st ∈ (from_read hdr env lib m).events) :
    c.is_feature_op = true := by
  refine from_read_all hdr env lib (fun e => ∀ c st, e = Event.call c st → c.is_feature_op = true)
    ?_ ?_ ?_ ?_ m _ h c st rfl
  · intro m e he c st hc; subst hc
    rw [(call_mem_read hdr env lib m c st he).2]; rfl
  · intro m e he c st hc; subst hc
    rw [(call_mem_write hdr env lib m c st he).2]; rfl
  · intro m e he c st hc; subst hc
    rw [(call_mem_process_list hdr env lib m c st he).2]; rfl
  · intro m e he c st hc; subst hc
    rw [(call_mem_process_modules hdr env lib m c st he).2]; rfl

/-- The calls of lines 29-40 in a run, with the status the library gave. -/
theorem setup_call_mem_main_trace (hdr : Header) (env : Env) (lib : Lib) (mem : Mem) (c : Call)
    (st : Nat) (hc : c.is_feature_op = false) :
    Event.call c st ∈ main_trace hdr env lib mem ↔
      (c = Call.vtum_library_initialize ∧ st = lib.library_initialize) ∨
      (lib.library_initialize = hdr.VTUM_STATUS_SUCCESS ∧
        c = Call.vtum_interface_create ∧ st = lib.interface_create.1) ∨
      (lib.library_initialize = hdr.VTUM_STATUS_SUCCESS ∧
        lib.interface_create.1 = hdr.VTUM_STATUS_SUCCESS ∧
        ((c = Call.vtum_interface_driver_version lib.interface_create.2 ∧
            st = (lib.driver_version lib.interface_create.2).1) ∨
         (c = Call.vtum_interface_driver_features lib.interface_create.2 ∧
            st = (lib.driver_features lib.interface_create.2).1))) := by
  by_cases h0 : lib.library_initialize = hdr.VTUM_STATUS_SUCCESS
  · by_cases h1 : lib.interface_create.1 = hdr.VTUM_STATUS_SUCCESS
    · rw [main_trace_of_prelude_succeeded hdr env lib mem h0 h1]
      have hno : Event.call c st ∉
          (from_read hdr env lib (store64 mem env.addr_target_value 0xDEADBEEF)).events := by
        intro h
        rw [call_mem_from_read hdr env lib _ c st h] at hc
        cases hc
      simp [hno, h0, h1, main_handle]
    · rw [main_trace_of_create_failed hdr env lib mem h0 h1]
      simp [failure_line, h0, h1]
  · rw [main_trace_of_initialize_failed hdr env lib mem h0]
    simp [failure_line, h0]

theorem main_returns_iff_unfailed (hdr : Header) (env : Env) (lib : Lib) (mem : Mem) :
    main_outcome hdr env lib mem = Outcome.returned 0 ↔
      ∀ c st, Event.call c st ∈ main_trace hdr env lib mem →
        c.is_setup_or_feature_op = true → st = hdr.VTUM_STATUS_SUCCESS := by
  have hm := main_stops_at_failure hdr env lib mem
  rw [main_outcome_eq, main_trace_eq]
  constructor
  · intro h c st hc hk
    by_contra hne
    have hs : (main_segment hdr env lib mem).stopped = true :=
      hm.1.2 ⟨_, hc, by simp [failed_call, hk, hne]⟩
    simp [hs] at h
  · intro h
    have hs : ¬ (main_segment hdr env lib mem).stopped = true := by
      intro hs
      obtain ⟨e, he, hf⟩ := hm.1.1 hs
      cases e with
      | call c st =>
        simp only [failed_call, Bool.and_eq_true, bne_iff_ne, ne_eq] at hf
        exact hf.2 (h c st he hf.1)
      | library_version => simp [failed_call] at hf
      | printf l => simp [failed_call] at hf
      | visitor_printf l => simp [failed_call] at hf
    simp [hs]

theorem main_exits_of_failed_call (hdr : Header) (env : Env) (lib : Lib) (mem : Mem) (c : Call)
    (st : Nat) (hc : Event.call c st ∈ main_trace hdr env lib mem)
    (hk : c.is_setup_or_feature_op = true) (hne : st ≠ hdr.VTUM_STATUS_SUCCESS) :
    main_outcome hdr env lib mem = Outcome.exited EXIT_FAILURE := by
  have hnot : ¬ main_outcome hdr env lib mem = Outcome.returned 0 := fun h0 =>
    hne ((main_returns_iff_unfailed hdr env lib mem).1 h0 c st hc hk)
  rw [main_outcome_eq] at hnot ⊢
  by_cases hs : (main_segment hdr env lib mem).stopped = true
  · simp [hs]
  · simp [hs] at hnot

/-- C10: `main` stops at the first failure and never retries.
(1) A run returns 0 if and only if every call of `vtum_library_initialize`, of
`vtum_interface_create` and of a feature operation in its trace returned
`VTUM_STATUS_SUCCESS`; (2) a run returns 0 or exits with `EXIT_FAILURE`;
(3) when one of these calls returns another status the run exits with
`EXIT_FAILURE` and no library function is called after it; (4) no library
function is called twice in a run; (5) `vtum_library_initialize` is called in
every run, and returns what the library answers; (6) `vtum_interface_create`
is called exactly when `vtum_library_initialize` succeeded, and returns what
the library answers; (7) hence a run returns 0 if and only if the library
answers `VTUM_STATUS_SUCCESS` to `vtum_library_initialize` and to
`vtum_interface_create` and every feature operation in the trace returned
`VTUM_STATUS_SUCCESS`. -/
theorem main_stops_at_first_failure (hdr : Header) (env : Env) (lib : Lib) (mem : Mem) :
    (main_outcome hdr env lib mem = Outcome.returned 0 ↔
      ∀ c st, Event.call c st ∈ main_trace hdr env lib mem →
        c.is_setup_or_feature_op = true → st = hdr.VTUM_STATUS_SUCCESS) ∧
    (main_outcome hdr env lib mem = Outcome.returned 0 ∨
      main_outcome hdr env lib mem = Outcome.exited EXIT_FAILURE) ∧
    (∀ pre c st post, main_trace hdr env lib mem = pre ++ Event.call c st :: post →
      c.is_setup_or_feature_op = true → st ≠ hdr.VTUM_STATUS_SUCCESS →
      main_outcome hdr env lib mem = Outcome.exited EXIT_FAILURE ∧
      ∀ e ∈ post, e.function = none) ∧
    (functions (main_trace hdr env lib mem)).Nodup ∧
    (∀ st, Event.call Call.vtum_library_initialize st ∈ main_trace hdr env lib mem ↔
      st = lib.library_initialize) ∧
    (∀ st, Event.call Call.vtum_interface_create st ∈ main_trace hdr env lib mem ↔
      lib.library_initialize = hdr.VTUM_STATUS_SUCCESS ∧ st = lib.interface_create.1) ∧
    (main_outcome hdr env lib mem = Outcome.returned 0 ↔
      lib.library_initialize = hdr.VTUM_STATUS_SUCCESS ∧
      lib.interface_create.1 = hdr.VTUM_STATUS_SUCCESS ∧
      ∀ c st, Event.call c st ∈ main_trace hdr env lib mem →
        c.is_feature_op = true → st = hdr.VTUM_STATUS_SUCCESS) := by
  have hm := main_stops_at_failure hdr env lib mem
  have hiff := main_returns_iff_unfailed hdr env lib mem
  have hinit : ∀ st, Event.call Call.vtum_library_initialize st ∈ main_trace hdr env lib mem ↔
      st = lib.library_initialize := by
    intro st
    rw [setup_call_mem_main_trace hdr env lib mem Call.vtum_library_initialize st rfl]
    simp
  have hcreate : ∀ st, Event.call Call.vtum_interface_create st ∈ main_trace hdr env lib mem ↔
      lib.library_initialize = hdr.VTUM_STATUS_SUCCESS ∧ st = lib.interface_create.1 := by
    intro st
    rw [setup_call_mem_main_trace hdr env lib mem Call.vtum_interface_create st rfl]
    simp
  refine ⟨hiff, ?_, ?_, main_functions_nodup hdr env lib mem, hinit, hcreate, ?_⟩
  · rw [main_outcome_eq]
    by_cases hs : (main_segment hdr env lib mem).stopped = true <;> simp [hs]
  · intro pre c st post hl hk hne
    refine ⟨main_exits_of_failed_call hdr env lib mem c st (by rw [hl]; simp) hk hne, ?_⟩
    rw [main_trace_eq] at hl
    exact quiet_after_failure_sound _ _ hm.2 pre _ post hl (by simp [failed_call, hk, hne])
  · rw [hiff]
    constructor
    · intro h
      have h0 : lib.library_initialize = hdr.VTUM_STATUS_SUCCESS :=
        h _ _ ((hinit _).2 rfl) rfl
      have h1 : lib.interface_create.1 = hdr.VTUM_STATUS_SUCCESS :=
        h _ _ ((hcreate _).2 ⟨h0, rfl⟩) rfl
      refine ⟨h0, h1, fun c st hc hf => h c st hc ?_⟩
      simp [Call.is_setup_or_feature_op, hf]
    · rintro ⟨h0, h1, h⟩ c st hc hk
      simp only [Call.is_setup_or_feature_op, Bool.or_eq_true, decide_eq_true_eq] at hk
      rcases hk with (hk | hk) | hk
      · subst hk
        rw [(hinit st).1 hc, h0]
      · subst hk
        rw [((hcreate st).1 hc).2, h1]
      · exact h c st hc hk

theorem main_stops_at_first_failure_witness :
    (main_outcome example_header example_env (example_lib 0x303 0 0 0 0 0 5 0 0) zero_memory =
        Outcome.exited EXIT_FAILURE ∧
      ∀ e ∈ [failure_line "write dummy variable" 5], e.function = none) ∧
    Event.call Call.vtum_library_initialize 3 ∈
      main_trace example_header example_env (example_lib 0x303 3 0 0 0 0 0 0 0) zero_memory ∧
    Event.call Call.vtum_interface_create 4 ∈
      main_trace example_header example_env (example_lib 0x303 0 4 0 0 0 0 0 0) zero_memory :=
  ⟨(main_stops_at_first_failure example_header example_env (example_lib 0x303 0 0 0 0 0 5 0 0)
      zero_memory).2.2.1
      [Event.call Call.vtum_library_initialize 0,
       Event.library_version,
       Event.printf ⟨"VT library version: %s\n", [Arg.buf [48, 46, 49, 0]]⟩,
       Event.call Call.vtum_interface_create 0,
       Event.call (Call.vtum_interface_driver_version 77) 0,
       Event.call (Call.vtum_interface_driver_features 77) 0,
       Event.printf ⟨"Using driver %s version %d.%d.%d.\n",
         [Arg.buf [100, 114, 118, 0], Arg.num 1, Arg.num 2, Arg.num 3]⟩,
       Event.call (Call.vtum_interface_memory_read 77 4242 ⟨0, 9⟩ 1000 1008 8) 0,
       Event.printf ⟨"Read variable value: %llx\n", [Arg.num 0xDEADBEEF]⟩]
      (Call.vtum_interface_memory_write 77 4242 ⟨0, 9⟩ 1000 1016 8) 5
      [failure_line "write dummy variable" 5] (by decide) rfl (by decide),
   ((main_stops_at_first_failure example_header example_env
      (example_lib 0x303 3 0 0 0 0 0 0 0) zero_memory).2.2.2.2.1 3).2 rfl,
   ((main_stops_at_first_failure example_header example_env
      (example_lib 0x303 0 4 0 0 0 0 0 0) zero_memory).2.2.2.2.2.1 4).2 ⟨rfl, rfl⟩⟩

/-! ## Going on to the next feature -/

theorem reached_append_iff (f : Feature) (l1 l2 : List Event) :
    reached f (l1 ++ l2) ↔ reached f l1 ∨ reached f l2 := by
  simp only [reached, functions, List.filterMap_append, List.mem_append]
  tauto

theorem not_reached_nil (f : Feature) : ¬ reached f [] := by
  simp [reached, functions]

theorem not_reached_prelude (hdr : Header) (env : Env) (lib : Lib) (m : Mem) (f : Feature) :
    ¬ reached f (prelude_segment hdr env lib m).events := by
  rintro (h | h)
  · exact unsupported_line_mem_prelude hdr env lib m f h
  · have := (prelude_segment_functions hdr env lib m).subset h
    cases f <;> simp [Feature.operation] at this

theorem reached_read_segment (hdr : Header) (env : Env) (lib : Lib) (m : Mem) (f : Feature)
    (h : reached f (read_segment hdr env lib m).events) : f = Feature.MEMORY_READ := by
  rcases h with h | h
  · exact (unsupported_line_mem_read hdr env lib m f h).1
  · have := (read_segment_functions hdr env lib m).subset h
    cases f <;> simp [Feature.operation] at this ⊢

theorem reached_write_segment (hdr : Header) (env : Env) (lib : Lib) (m : Mem) (f : Feature)
    (h : reached f (write_segment hdr env lib m).events) : f = Feature.MEMORY_WRITE := by
  rcases h with h | h
  · exact (unsupported_line_mem_write hdr env lib m f h).1
  · have := (write_segment_functions hdr env lib m).subset h
    cases f <;> simp [Feature.operation] at this ⊢

theorem reached_process_list_segment (hdr : Header) (env : Env) (lib : Lib) (m : Mem)
    (f : Feature) (h : reached f (process_list_segment hdr env lib m).events) :
    f = Feature.PROCESS_LIST := by
  rcases h with h | h
  · exact (unsupported_line_mem_process_list hdr env lib m f h).1
  · have := (process_list_segment_functions hdr env lib m).subset h
    cases f <;> simp [Feature.operation] at this ⊢

theorem read_segment_stopped (hdr : Header) (env : Env) (lib : Lib) (m : Mem)
    (h : (read_segment hdr env lib m).stopped = true) :
    ¬ unfailed hdr.VTUM_STATUS_SUCCESS Feature.MEMORY_READ (read_segment hdr env lib m).events := by
  intro hu
  simp only [read_segment] at h hu
  split_ifs at h hu with hg hs
  simp [unfailed, failure_line, Call.function, Feature.operation] at hu
  exact hs hu

theorem write_segment_stopped (hdr : Header) (env : Env) (lib : Lib) (m : Mem)
    (h : (write_segment hdr env lib m).stopped = true) :
    ¬ unfailed hdr.VTUM_STATUS_SUCCESS Feature.MEMORY_WRITE
      (write_segment hdr env lib m).events := by
  intro hu
  simp only [write_segment] at h hu
  split_ifs at h hu with hg hs
  simp [unfailed, failure_line, Call.function, Feature.operation] at hu
  exact hs hu

theorem process_list_segment_stopped (hdr : Header) (env : Env) (lib : Lib) (m : Mem)
    (h : (process_list_segment hdr env lib m).stopped = true) :
    ¬ unfailed hdr.VTUM_STATUS_SUCCESS Feature.PROCESS_LIST
      (process_list_segment hdr env lib m).events := by
  intro hu
  simp only [process_list_segment] at h hu
  split_ifs at h hu with hg hs
  simp [unfailed, failure_line, Call.function, Feature.operation] at hu
  exact hs hu

theorem process_modules_segment_stopped (hdr : Header) (env : Env) (lib : Lib) (m : Mem)
    (h : (process_modules_segment hdr env lib m).stopped = true) :
    ¬ unfailed hdr.VTUM_STATUS_SUCCESS Feature.PROCESS_MODULES
      (process_modules_segment hdr env lib m).events := by
  intro hu
  simp only [process_modules_segment] at h hu
  split_ifs at h hu with hg hs
  simp [unfailed, failure_line, Call.function, Feature.operation] at hu
  exact hs hu

theorem unfailed_append (success : Nat) (f : Feature) (l1 l2 : List Event)
    (h : unfailed success f (l1 ++ l2)) : unfailed success f l1 ∧ unfailed success f l2 :=
  ⟨fun c st hc => h c st (List.mem_append_left _ hc),
   fun c st hc => h c st (List.mem_append_right _ hc)⟩

/-- When no call of the first stretch's operation failed, the second stretch follows. -/
theorem Segment.andThen_advance (success : Nat) (f g : Feature) (a : Segment)
    (b : Mem → Segment) (ha : a.stopped = true → ¬ unfailed success f a.events)
    (hb : ∀ m, reached g (b m).events)
    (h : unfailed success f (a.andThen b).events) : reached g (a.andThen b).events := by
  rw [Segment.andThen_events] at h ⊢
  have hs : ¬ a.stopped = true := fun hs => ha hs (unfailed_append _ _ _ _ h).1
  simp only [hs, if_false]
  exact reached_append_right _ _ _ (hb _)

theorem Segment.andThen_advance_lift (success : Nat) (f g : Feature) (a : Segment)
    (b : Mem → Segment) (ha : ¬ reached f a.events)
    (hb : ∀ m, reached f (b m).events → unfailed success f (b m).events →
      reached g (b m).events)
    (hr : reached f (a.andThen b).events) (h : unfailed success f (a.andThen b).events) :
    reached g (a.andThen b).events := by
  rw [Segment.andThen_events] at hr h ⊢
  rw [reached_append_iff] at hr
  rcases hr with hr | hr
  · exact absurd hr ha
  · split_ifs at hr h ⊢ with hs
    · exact absurd hr (not_reached_nil f)
    · exact reached_append_right _ _ _ (hb _ hr (unfailed_append _ _ _ _ h).2)

theorem Segment.andThen_finish (success : Nat) (f : Feature) (a : Segment)
    (b : Mem → Segment) (ha : ¬ reached f a.events)
    (hb : ∀ m, reached f (b m).events → unfailed success f (b m).events →
      (b m).stopped = false)
    (hr : reached f (a.andThen b).events) (h : unfailed success f (a.andThen b).events) :
    (a.andThen b).stopped = false := by
  rw [Segment.andThen_events] at hr h
  rw [Segment.andThen_stopped]
  rw [reached_append_iff] at hr
  rcases hr with hr | hr
  · exact absurd hr ha
  · split_ifs at hr h with hs
    · exact absurd hr (not_reached_nil f)
    · simp [hs, hb _ hr (unfailed_append _ _ _ _ h).2]

theorem main_advances (hdr : Header) (env : Env) (lib : Lib) (mem : Mem) (f g : Feature)
    (hn : f.next = some g) (hr : reached f (main_trace hdr env lib mem))
    (hu : unfailed hdr.VTUM_STATUS_SUCCESS f (main_trace hdr env lib mem)) :
    reached g (main_trace hdr env lib mem) := by
  rw [main_trace_eq] at hr hu ⊢
  cases f <;> simp [Feature.next] at hn <;> subst hn
  · refine Segment.andThen_advance_lift _ _ _ _ _ (not_reached_prelude hdr env lib mem _)
      (fun m _ hu => ?_) hr hu
    exact Segment.andThen_advance _ _ _ _ _ (read_segment_stopped hdr env lib m)
      (from_write_reached hdr env lib) hu
  · refine Segment.andThen_advance_lift _ _ _ _ _ (not_reached_prelude hdr env lib mem _)
      (fun m hr hu => ?_) hr hu
    refine Segment.andThen_advance_lift _ _ _ _ _
      (fun h => by simpa using reached_read_segment hdr env lib m _ h) (fun m _ hu => ?_) hr hu
    exact Segment.andThen_advance _ _ _ _ _ (write_segment_stopped hdr env lib m)
      (from_process_list_reached hdr env lib) hu
  · refine Segment.andThen_advance_lift _ _ _ _ _ (not_reached_prelude hdr env lib mem _)
      (fun m hr hu => ?_) hr hu
    refine Segment.andThen_advance_lift _ _ _ _ _
      (fun h => by simpa using reached_read_segment hdr env lib m _ h) (fun m hr hu => ?_) hr hu
    refine Segment.andThen_advance_lift _ _ _ _ _
      (fun h => by simpa using reached_write_segment hdr env lib m _ h) (fun m _ hu => ?_) hr hu
    exact Segment.andThen_advance _ _ _ _ _ (process_list_segment_stopped hdr env lib m)
      (process_modules_segment_reached hdr env lib) hu

theorem main_finishes (hdr : Header) (env : Env) (lib : Lib) (mem : Mem)
    (hr : reached Feature.PROCESS_MODULES (main_trace hdr env lib mem))
    (hu : unfailed hdr.VTUM_STATUS_SUCCESS Feature.PROCESS_MODULES
      (main_trace hdr env lib mem)) :
    main_outcome hdr env lib mem = Outcome.returned 0 := by
  rw [main_trace_eq] at hr hu
  rw [main_outcome_eq]
  have hs : (main_segment hdr env lib mem).stopped = false := by
    refine Segment.andThen_finish _ _ _ _ (not_reached_prelude hdr env lib mem _)
      (fun m hr hu => ?_) hr hu
    refine Segment.andThen_finish _ _ _ _
      (fun h => by simpa using reached_read_segment hdr env lib m _ h) (fun m hr hu => ?_) hr hu
    refine Segment.andThen_finish _ _ _ _
      (fun h => by simpa using reached_write_segment hdr env lib m _ h) (fun m hr hu => ?_) hr hu
    refine Segment.andThen_finish _ _ _ _
      (fun h => by simpa using reached_process_list_segment hdr env lib m _ h)
      (fun m _ hu => ?_) hr hu
    by_contra hst
    exact process_modules_segment_stopped hdr env lib m (by simpa using hst) hu
  simp [hs]

theorem main_reached_read_iff (hdr : Header) (env : Env) (lib : Lib) (mem : Mem) :
    reached Feature.MEMORY_READ (main_trace hdr env lib mem) ↔
      lib.library_initialize = hdr.VTUM_STATUS_SUCCESS ∧
      lib.interface_create.1 = hdr.VTUM_STATUS_SUCCESS := by
  constructor
  · intro h
    by_contra hne
    have hst : (prelude_segment hdr env lib mem).stopped = true := by
      simp only [prelude_segment]
      split_ifs with h0 h1
      · exact absurd ⟨h0, h1⟩ hne
      · rfl
      · rfl
    rw [main_trace_eq, main_segment, Segment.andThen_events, reached_append_iff] at h
    simp only [hst, if_true] at h
    rcases h with h | h
    · exact not_reached_prelude hdr env lib mem _ (by simpa [hst] using h)
    · exact not_reached_nil _ h
  · rintro ⟨h0, h1⟩
    exact main_reaches_read hdr env lib mem h0 h1


/-- C2: `main` gates every feature-specific call on the feature bitmask.  With
`features` the bits the library reports for the handle: (1) a call of a
feature operation is in the trace only if `features & DRIVER_FEATURE_X.bits`
is not zero for its feature; (2) when that value is zero the operation is not
called at all; (3) when the part of `main` for a feature is entered, the bit
is unset exactly when the line "Driver does not support ..." is printed;
(4) the part for `MEMORY_READ` is entered exactly when
`vtum_library_initialize` and `vtum_interface_create` succeed; (5) after the
line for a missing feature `main` enters the part for the next feature, and
(6) after the line for the last feature it returns 0; (7) when
`DRIVER_FEATURE_X.bits` is the single bit `2 ^ k`, the test is the test of bit
`k`; (8) from the part for a feature `main` goes on to the part for the next
feature unless a call of the operation failed, that is, both when the bit is
unset and when the operation ran and succeeded, and (9) from the part for the
last feature it returns 0 in the same way; (10) so when the two first calls
succeed and all four bits are unset, `main` calls none of the four operations,
prints the four lines and returns 0; (11) an unset bit never makes `main`
fail: a run returns 0 unless a call of `vtum_library_initialize`, of
`vtum_interface_create` or of a feature operation in its trace returned a
status other than `VTUM_STATUS_SUCCESS`. -/
theorem main_gates_every_feature_call (hdr : Header) (env : Env) (lib : Lib) (mem : Mem) :
    (∀ c st f, Event.call c st ∈ main_trace hdr env lib mem →
      c.function.required_feature = some f →
      (lib.driver_features lib.interface_create.2).2 &&& f.bits hdr ≠ 0) ∧
    (∀ f : Feature, (lib.driver_features lib.interface_create.2).2 &&& f.bits hdr = 0 →
      f.operation ∉ functions (main_trace hdr env lib mem)) ∧
    (∀ f : Feature, reached f (main_trace hdr env lib mem) →
      ((lib.driver_features lib.interface_create.2).2 &&& f.bits hdr = 0 ↔
        f.unsupported_line ∈ main_trace hdr env lib mem)) ∧
    (reached Feature.MEMORY_READ (main_trace hdr env lib mem) ↔
      lib.library_initialize = hdr.VTUM_STATUS_SUCCESS ∧
      lib.interface_create.1 = hdr.VTUM_STATUS_SUCCESS) ∧
    (∀ f g : Feature, f.unsupported_line ∈ main_trace hdr env lib mem → f.next = some g →
      reached g (main_trace hdr env lib mem)) ∧
    (Feature.PROCESS_MODULES.unsupported_line ∈ main_trace hdr env lib mem →
      main_outcome hdr env lib mem = Outcome.returned 0) ∧
    (∀ (f : Feature) (k : Nat), f.bits hdr = 2 ^ k →
      ((lib.driver_features lib.interface_create.2).2 &&& f.bits hdr ≠ 0 ↔
        (lib.driver_features lib.interface_create.2).2.testBit k = true)) ∧
    (∀ f g : Feature, f.next = some g → reached f (main_trace hdr env lib mem) →
      unfailed hdr.VTUM_STATUS_SUCCESS f (main_trace hdr env lib mem) →
      reached g (main_trace hdr env lib mem)) ∧
    (reached Feature.PROCESS_MODULES (main_trace hdr env lib mem) →
      unfailed hdr.VTUM_STATUS_SUCCESS Feature.PROCESS_MODULES (main_trace hdr env lib mem) →
      main_outcome hdr env lib mem = Outcome.returned 0) ∧
    (lib.library_initialize = hdr.VTUM_STATUS_SUCCESS →
      lib.interface_create.1 = hdr.VTUM_STATUS_SUCCESS →
      (∀ f : Feature, (lib.driver_features lib.interface_create.2).2 &&& f.bits hdr = 0) →
      main_outcome hdr env lib mem = Outcome.returned 0 ∧
      ∀ f : Feature, f.unsupported_line ∈ main_trace hdr env lib mem ∧
        f.operation ∉ functions (main_trace hdr env lib mem)) ∧
    (main_outcome hdr env lib mem = Outcome.returned 0 ∨
      ∃ c st, Event.call c st ∈ main_trace hdr env lib mem ∧
        c.is_setup_or_feature_op = true ∧ st ≠ hdr.VTUM_STATUS_SUCCESS) := by
  have ha : ∀ c st f, Event.call c st ∈ main_trace hdr env lib mem →
      c.function.required_feature = some f →
      (lib.driver_features lib.interface_create.2).2 &&& f.bits hdr ≠ 0 := by
    intro c st f hc hf
    exact (has_feature_iff _ _).1
      (main_call_feature hdr env lib c f (call_mem_main_trace hdr env lib mem c st hc) hf)
  have hb : ∀ f : Feature, (lib.driver_features lib.interface_create.2).2 &&& f.bits hdr = 0 →
      f.operation ∉ functions (main_trace hdr env lib mem) := by
    intro f h0 hmem
    obtain ⟨c, st, hc, hfc⟩ := mem_functions_call _ f hmem
    refine ha c st f hc ?_ h0
    rw [hfc]; cases f <;> rfl
  have hline : ∀ f : Feature, reached f (main_trace hdr env lib mem) →
      ((lib.driver_features lib.interface_create.2).2 &&& f.bits hdr = 0 ↔
        f.unsupported_line ∈ main_trace hdr env lib mem) := by
    intro f hr
    constructor
    · intro h0
      rcases hr with hr | hr
      · exact hr
      · exact absurd hr (hb f h0)
    · intro hl
      have := unsupported_line_gate hdr env lib mem f hl
      simpa [has_feature, main_features] using this
  have hun : ∀ f : Feature, (lib.driver_features lib.interface_create.2).2 &&& f.bits hdr = 0 →
      unfailed hdr.VTUM_STATUS_SUCCESS f (main_trace hdr env lib mem) := by
    intro f h0 c st hc hf
    exact absurd (hf ▸ call_function_mem _ c st hc) (hb f h0)
  refine ⟨ha, hb, hline, main_reached_read_iff hdr env lib mem, ?_,
    main_returns_after_process_modules hdr env lib mem, ?_,
    fun f g hn hr hu => main_advances hdr env lib mem f g hn hr hu,
    main_finishes hdr env lib mem, ?_, ?_⟩
  · intro f g hl hn
    cases f <;> simp [Feature.next] at hn <;> subst hn
    · exact main_continues_after_read hdr env lib mem hl
    · exact main_continues_after_write hdr env lib mem hl
    · exact main_continues_after_process_list hdr env lib mem hl
  · intro f k hk
    rw [hk, ← has_feature_iff, has_feature_two_pow]
  · intro h0 h1 hall
    have r1 := main_reaches_read hdr env lib mem h0 h1
    have r2 := main_advances hdr env lib mem _ _ (by rfl : Feature.MEMORY_READ.next = _) r1
      (hun _ (hall _))
    have r3 := main_advances hdr env lib mem _ _ (by rfl : Feature.MEMORY_WRITE.next = _) r2
      (hun _ (hall _))
    have r4 := main_advances hdr env lib mem _ _ (by rfl : Feature.PROCESS_LIST.next = _) r3
      (hun _ (hall _))
    refine ⟨main_finishes hdr env lib mem r4 (hun _ (hall _)), fun f => ⟨?_, hb f (hall f)⟩⟩
    cases f
    · exact (hline _ r1).1 (hall _)
    · exact (hline _ r2).1 (hall _)
    · exact (hline _ r3).1 (hall _)
    · exact (hline _ r4).1 (hall _)
  · by_cases h0 : main_outcome hdr env lib mem = Outcome.returned 0
    · exact Or.inl h0
    · right
      by_contra hne
      refine h0 ((main_returns_iff_unfailed hdr env lib mem).2 fun c st hc hk => ?_)
      by_contra hst
      exact hne ⟨c, st, hc, hk, hst⟩

theorem example_run_with_read_only :
    main_trace example_header example_env (example_lib 0x100 0 0 0 0 0 0 0 0) zero_memory =
      [Event.call Call.vtum_library_initialize 0,
       Event.library_version,
       Event.printf ⟨"VT library version: %s\n", [Arg.buf [48, 46, 49, 0]]⟩,
       Event.call Call.vtum_interface_create 0,
       Event.call (Call.vtum_interface_driver_version 77) 0,
       Event.call (Call.vtum_interface_driver_features 77) 0,
       Event.printf ⟨"Using driver %s version %d.%d.%d.\n",
         [Arg.buf [100, 114, 118, 0], Arg.num 1, Arg.num 2, Arg.num 3]⟩,
       Event.call (Call.vtum_interface_memory_read 77 4242 ⟨0, 9⟩ 1000 1008 8) 0,
       Event.printf ⟨"Read variable value: %llx\n", [Arg.num 0xDEADBEEF]⟩,
       Event.printf ⟨"Driver does not support writing memory\n", []⟩,
       Event.printf ⟨"Driver does not support iterating processes\n", []⟩,
       Event.printf ⟨"Driver does not support iterating modules\n", []⟩] := by
  decide

theorem main_gates_every_feature_call_witness :
    reached Feature.MEMORY_WRITE
      (main_trace example_header example_env (example_lib 0x01 0 0 0 0 0 0 0 0) zero_memory) ∧
    reached Feature.MEMORY_WRITE
      (main_trace example_header example_env (example_lib 0x100 0 0 0 0 0 0 0 0) zero_memory) ∧
    (main_outcome example_header example_env (example_lib 0 0 0 0 0 0 0 0 0) zero_memory =
        Outcome.returned 0 ∧
      ∀ f : Feature,
        f.unsupported_line ∈
          main_trace example_header example_env (example_lib 0 0 0 0 0 0 0 0 0) zero_memory ∧
        f.operation ∉ functions
          (main_trace example_header example_env (example_lib 0 0 0 0 0 0 0 0 0) zero_memory)) :=
  ⟨(main_gates_every_feature_call example_header example_env (example_lib 0x01 0 0 0 0 0 0 0 0)
      zero_memory).2.2.2.2.1 Feature.MEMORY_READ Feature.MEMORY_WRITE (by decide) rfl,
   (main_gates_every_feature_call example_header example_env
      (example_lib 0x100 0 0 0 0 0 0 0 0) zero_memory).2.2.2.2.2.2.2.1
      Feature.MEMORY_READ Feature.MEMORY_WRITE rfl
      (Or.inr (by decide))
      (by
        intro c st hc _
        rw [example_run_with_read_only] at hc
        simp at hc
        rcases hc with h | h | h | h | h <;> exact h.2),
   (main_gates_every_feature_call example_header example_env (example_lib 0 0 0 0 0 0 0 0 0)
      zero_memory).2.2.2.2.2.2.2.2.2.1 rfl rfl (fun f => by cases f <;> rfl)⟩

/-! ## Feature bits `main` does not know -/

/-- C5: unknown feature bits are ignored, not rejected.  For two answers to
`vtum_interface_driver_features` with the same status whose bits agree on
`MEMORY_READ`, `MEMORY_WRITE`, `PROCESS_LIST` and `PROCESS_MODULES`, and a
library that is otherwise the same, the two runs of `main` are equal: the same
sequence of calls and printed lines, the same memory, the same outcome. -/
theorem main_ignores_unknown_feature_bits (hdr : Header) (env : Env) (lib : Lib)
    (r1 r2 : Nat → Nat × Nat) (mem : Mem)
    (hs : ∀ handle, (r1 handle).1 = (r2 handle).1)
    (hf : ∀ handle (f : Feature),
      (r1 handle).2 &&& f.bits hdr = (r2 handle).2 &&& f.bits hdr) :
    main hdr env (lib.with_features r1) (Machine.start mem) =
      main hdr env (lib.with_features r2) (Machine.start mem) := by
  have h1 := hf lib.interface_create.2 Feature.MEMORY_READ
  have h2 := hf lib.interface_create.2 Feature.MEMORY_WRITE
  have h3 := hf lib.interface_create.2 Feature.PROCESS_LIST
  have h4 := hf lib.interface_create.2 Feature.PROCESS_MODULES
  simp only [Feature.bits] at h1 h2 h3 h4
  have e4 : process_modules_segment hdr env (lib.with_features r1) =
      process_modules_segment hdr env (lib.with_features r2) := by
    funext m
    simp only [process_modules_segment, main_features, main_handle, Lib.with_features,
      has_feature, h4]
  have e3 : from_process_list hdr env (lib.with_features r1) =
      from_process_list hdr env (lib.with_features r2) := by
    funext m
    simp only [from_process_list, e4]
    simp only [process_list_segment, main_features, main_handle, Lib.with_features,
      has_feature, h3]
  have e2 : from_write hdr env (lib.with_features r1) =
      from_write hdr env (lib.with_features r2) := by
    funext m
    simp only [from_write, e3]
    simp only [write_segment, main_features, main_handle, Lib.with_features, has_feature, h2]
  have e1 : from_read hdr env (lib.with_features r1) =
      from_read hdr env (lib.with_features r2) := by
    funext m
    simp only [from_read, e2]
    simp only [read_segment, main_features, main_handle, Lib.with_features, has_feature, h1]
  rw [main_eq_segments, main_eq_segments]
  simp only [main_segment, e1]
  simp only [prelude_segment, main_handle, Lib.with_features, hs]

theorem main_ignores_unknown_feature_bits_witness :
    main example_header example_env
        ((example_lib 0 0 0 0 0 0 0 0 0).with_features fun _ => (0, 0x301))
        (Machine.start zero_memory) =
      main example_header example_env
        ((example_lib 0 0 0 0 0 0 0 0 0).with_features fun _ => (0, 0xFFFF00000000F3F5))
        (Machine.start zero_memory) :=
  main_ignores_unknown_feature_bits example_header example_env (example_lib 0 0 0 0 0 0 0 0 0)
    (fun _ => (0, 0x301)) (fun _ => (0, 0xFFFF00000000F3F5)) zero_memory (fun _ => rfl)
    (fun _ f => by cases f <;> simp only [Feature.bits, example_header] <;> decide)

/-! ## The status of each call -/

/-- The run with every feature present and every call successful. -/
theorem main_run_with_all_features :
    main_outcome example_header example_env (example_lib 0x303 0 0 0 0 0 0 0 0) zero_memory =
      Outcome.returned 0 ∧
    main_trace example_header example_env (example_lib 0x303 0 0 0 0 0 0 0 0) zero_memory =
      [Event.call Call.vtum_library_initialize 0,
       Event.library_version,
       Event.printf ⟨"VT library version: %s\n", [Arg.buf [48, 46, 49, 0]]⟩,
       Event.call Call.vtum_interface_create 0,
       Event.call (Call.vtum_interface_driver_version 77) 0,
       Event.call (Call.vtum_interface_driver_features 77) 0,
       Event.printf ⟨"Using driver %s version %d.%d.%d.\n",
         [Arg.buf [100, 114, 118, 0], Arg.num 1, Arg.num 2, Arg.num 3]⟩,
       Event.call (Call.vtum_interface_memory_read 77 4242 ⟨0, 9⟩ 1000 1008 8) 0,
       Event.printf ⟨"Read variable value: %llx\n", [Arg.num 0xDEADBEEF]⟩,
       Event.call (Call.vtum_interface_memory_write 77 4242 ⟨0, 9⟩ 1000 1016 8) 0,
       Event.printf ⟨"Write variable value: %llx\n", [Arg.num 0xB00BB00B]⟩,
       Event.printf ⟨"Current process list:\n", []⟩,
       Event.call (Call.vtum_interface_process_list 77) 0,
       Event.visitor_printf ⟨" - %u %s (directory table base = 0x%llX)\n",
         [Arg.num 4, Arg.buf [83, 121, 115, 116, 101, 109, 73, 100, 108, 101, 80, 114, 111, 99,
           115, 0], Arg.num 0x1AB000]⟩,
       Event.visitor_printf ⟨" - %u %s (directory table base = 0x%llX)\n",
         [Arg.num 4242, Arg.buf [97, 46, 101, 120, 101, 0, 0, 0, 0, 0, 0, 0, 0, 0, 0, 0],
           Arg.num 0x2CD000]⟩,
       Event.printf ⟨"Current processes modules:\n", []⟩,
       Event.call (Call.vtum_interface_process_module_list 77 4242 ⟨0, 9⟩) 0,
       Event.visitor_printf ⟨" - %llx %s (size = %llx)\n",
         [Arg.num 0x10000, Arg.buf [97, 46, 101, 120, 101, 0], Arg.num 0x2000]⟩] := by
  decide

/-- The run when `vtum_library_initialize` fails. -/
theorem main_run_when_initialize_fails :
    main_outcome example_header example_env (example_lib 0x303 3 0 0 0 0 0 0 0) zero_memory =
      Outcome.exited EXIT_FAILURE ∧
    main_trace example_header example_env (example_lib 0x303 3 0 0 0 0 0 0 0) zero_memory =
      [Event.call Call.vtum_library_initialize 3,
       Event.printf ⟨"failed to %s. status: %x\n",
         [Arg.str "failed to initialize lib", Arg.num 3]⟩] := by
  decide

end Vtum
